import Mathlib

/-!
# DAFoam workshop sources: a verification development

Shallow embedding of

* `2022_Summer/examples/sample_codes/DAObjFuncMyObj.C`
* `2022_Summer/examples/dafoam_lite/src/adjoint/DASolver/DASolver.H`
* `2022_Summer/examples/dafoam_lite/src/pyDASolvers/DASolvers.H`

Scalars are modelled in exact arithmetic (`ℚ`), labels as integers, PETSc vectors and
OpenFOAM lists as Lean lists.  A `FatalError` exit is a value of `Except Failure`.
The objective is embedded a second time in double precision (`Double`, round to nearest,
ties to even), for what depends on rounding.
-/

namespace Foam

set_option linter.unusedVariables false

/-! ## Primitive types -/

/-- OpenFOAM `scalar`, in exact arithmetic. -/
abbrev scalar := ℚ

/-- The C++ type `double`, in exact arithmetic. -/
abbrev double := ℚ

/-- PETSc `PetscScalar`, in exact arithmetic. -/
abbrev PetscScalar := ℚ

/-- OpenFOAM `label`. -/
abbrev label := ℤ

/-- OpenFOAM `word`. -/
abbrev word := String

abbrev scalarList := List scalar

abbrev labelList := List label

/-- PETSc `Vec`: the entries held by the handle. -/
abbrev Vec := List scalar

/-- The ways a call can end without returning. -/
inductive Failure where
  /-- A lookup in the object registry or in a dictionary found nothing. -/
  | notFound (name : word)
  /-- An index outside the addressed list. -/
  | outOfBounds
  /-- A caller error: a bad index or name handed in from outside. -/
  | usageError
  deriving DecidableEq, Repr

/-- Checked element access `list[i]`. -/
def index {α : Type} (list : List α) (i : Nat) : Except Failure α :=
  match list[i]? with
  | some x => .ok x
  | none => .error .outOfBounds

/-- The loop `forAll(list, i)`, that is `for (label i = 0; i < list.size(); i++)`,
threading the variables the body updates. -/
def forAll {α σ : Type} (list : List α) (body : Nat → σ → Except Failure σ) (init : σ) :
    Except Failure σ :=
  (List.range list.length).foldlM (fun st i => body i st) init

/-- The binary operation `sumOp<scalar>()`. -/
def sumOp (x y : scalar) : scalar := x + y

/-- Cross-process `reduce(value, bop)`: the local value is combined with the values the other
processes bring to the same collective call; on a single process there are none. -/
def reduce (value : scalar) (bop : scalar → scalar → scalar) (others : List scalar) : scalar :=
  others.foldl bop value

/-! ## Mesh and registry -/

/-- Internal field of a `volScalarField`: one value per cell. -/
abbrev volScalarField := scalarList

/-- The object registry of a mesh: named fields. -/
abbrev objectRegistry := List (word × volScalarField)

/-- The call `db.lookupObject<volScalarField>(name)`. -/
def objectRegistry.lookupObject (db : objectRegistry) (name : word) :
    Except Failure volScalarField :=
  match db.find? (fun e => e.1 == name) with
  | some e => .ok e.2
  | none => .error (.notFound name)

/-- The part of `fvMesh` the objective reads: cell volumes `V()` and the registry `thisDb()`. -/
structure fvMesh where
  V : scalarList
  thisDb : objectRegistry

/-- One entry of an OpenFOAM dictionary. -/
inductive entry where
  | wordEntry (w : word)
  | scalarEntry (x : scalar)
  | labelEntry (n : label)
  deriving DecidableEq, Repr

/-- OpenFOAM `dictionary`: keyword/entry pairs. -/
abbrev dictionary := List (word × entry)

/-! ## DAObjFuncMyObj -/

/-- The members of `DAObjFuncMyObj` (inherited from `DAObjFunc`) that the sample code touches. -/
structure DAObjFuncMyObj where
  mesh_ : fvMesh
  objFuncName_ : word
  objFuncPart_ : word
  objFuncDict_ : dictionary
  objFuncType_ : word

/-- The three reference parameters `calcObjFunc` may write, as they stand on return. -/
structure ObjFuncOut where
  objFuncFaceValues : scalarList
  objFuncCellValues : scalarList
  objFuncValue : scalar
  deriving DecidableEq, Repr

/-- The method `DAObjFuncMyObj::calcObjFunc` on one process, in exact arithmetic; `others` are
the values the other processes hand to the collective `reduce`. -/
def DAObjFuncMyObj.calcObjFunc (self : DAObjFuncMyObj) (others : List scalar)
    (objFuncFaceSources objFuncCellSources : labelList)
    (objFuncFaceValues objFuncCellValues : scalarList) (objFuncValue : scalar) :
    Except Failure ObjFuncOut := do
  let objFuncValue : scalar := 0
  let db := self.mesh_.thisDb
  let p ← db.lookupObject "p"
  let objFuncValue ← forAll p (fun cellI objFuncValue => do
    let pI ← index p cellI
    let vI ← index self.mesh_.V cellI
    pure (objFuncValue + pI * vI)) objFuncValue
  -- need to reduce the sum of force across all processors
  let objFuncValue := reduce objFuncValue sumOp others
  return { objFuncFaceValues, objFuncCellValues, objFuncValue }

/-- The arguments one process passes to `calcObjFunc`. -/
structure ObjFuncArgs where
  objFuncFaceSources : labelList
  objFuncCellSources : labelList
  objFuncFaceValues : scalarList
  objFuncCellValues : scalarList
  objFuncValue : scalar

/-- What a process brings to the collective `reduce`: its `objFuncValue` when the reduction
adds nothing to it. -/
def DAObjFuncMyObj.contribution (self : DAObjFuncMyObj) (a : ObjFuncArgs) :
    Except Failure scalar := do
  let r ← self.calcObjFunc [] a.objFuncFaceSources a.objFuncCellSources
    a.objFuncFaceValues a.objFuncCellValues a.objFuncValue
  pure r.objFuncValue

/-- All processes call `calcObjFunc` together: process `i` reduces its own value with the
contributions of every other process. A failure on one process ends the whole run. -/
def DAObjFuncMyObj.calcObjFuncAllProcs (procs : List (DAObjFuncMyObj × ObjFuncArgs)) :
    Except Failure (List ObjFuncOut) := do
  let contribs ← procs.mapM (fun pa => pa.1.contribution pa.2)
  procs.enum.mapM (fun ipa =>
    ipa.2.1.calcObjFunc (contribs.eraseIdx ipa.1) ipa.2.2.objFuncFaceSources
      ipa.2.2.objFuncCellSources ipa.2.2.objFuncFaceValues ipa.2.2.objFuncCellValues
      ipa.2.2.objFuncValue)

/-- A single-process object whose registry holds exactly the field `p`. -/
def DAObjFuncMyObj.ofFields (p V : scalarList) : DAObjFuncMyObj :=
  { mesh_ := { V := V, thisDb := [("p", p)] }, objFuncName_ := "myObj", objFuncPart_ := "part1",
    objFuncDict_ := [("type", .wordEntry "myObj")], objFuncType_ := "myObj" }

/-- The field registered as `p` on the mesh of an object; empty when there is none. -/
def DAObjFuncMyObj.pField (self : DAObjFuncMyObj) : scalarList :=
  match self.mesh_.thisDb.lookupObject "p" with
  | .ok p => p
  | .error _ => []

/-! ## DAField, as far as DASolver uses it -/

/-- PETSc `Mat`: the rows held by the handle. -/
abbrev Mat := List (List scalar)

/-- PETSc `KSP`: a solver handle. -/
structure KSP where
  handle : Nat
  deriving DecidableEq, Repr

/-- The conversions of class `DAField` that `DASolver.H` calls. The class itself is declared
in `DAField.H`, outside these sources, so the conversions are parameters: `F` is the OpenFOAM
side (mesh and registered fields), a to-field conversion reads the vector and rewrites `F`,
a to-vector conversion reads `F` and rewrites the entries of the vector it is handed. -/
structure DAField (F : Type) where
  ofField2StateVec : F → Vec → Vec
  stateVec2OFField : Vec → F → F
  pointVec2OFMesh : Vec → F → F
  ofMesh2PointVec : F → Vec → Vec
  resVec2OFResField : Vec → F → F
  ofResField2ResVec : F → Vec → Vec

/-- OpenFOAM `Time`, reduced to the value and index the time instances store. -/
structure Time where
  value : scalar := 0
  timeIndex : label := 0
  deriving DecidableEq, Repr

/-- OpenFOAM `SolverPerformance<scalar>`. -/
structure SolverPerformance where
  solverName : word := ""
  fieldName : word := ""
  initialResidual : scalar
  finalResidual : scalar
  nIterations : label := 0
  deriving DecidableEq, Repr

/-- The function `mag` on scalars. -/
def mag (x : scalar) : scalar := |x|

/-- One item streamed into `Info`. -/
inductive InfoItem where
  | str (s : String)
  | num (x : scalar)
  | endl
  deriving DecidableEq, Repr

/-! ## DASolver -/

/-- The data members of class `DASolver` with a value the model can hold, with the initial
values the header gives them. `meshPtr_` stands for the mesh and everything registered on it. -/
structure DASolver (F : Type) where
  runTimePtr_ : Time := {}
  meshPtr_ : F
  daFieldPtr_ : DAField F
  objFuncNames4Adj_ : List word := []
  nItersObjFuncAvg_ : label := -9999
  avgObjFuncValues_ : scalarList := []
  nSolveAdjointCalls_ : label := 0
  forwardADDerivVal_ : List (word × PetscScalar) := []
  primalMinRes_ : scalar := 10000000000
  prevPrimalSolTime_ : scalar := -10000000000
  globalADTape4dRdWTInitialized : label := 0
  stateAllInstances_ : List (List scalar) := []
  stateBoundaryAllInstances_ : List (List scalar) := []
  objFuncsAllInstances_ : List dictionary := []
  runTimeAllInstances_ : List scalar := []
  runTimeIndexAllInstances_ : List label := []
  nTimeInstances_ : label := -9999
  periodicity_ : scalar := 0

/-- The member functions `DASolver.H` only declares that this development needs: the pure
virtual `solvePrimal` of the selected solver and `solveLinearEqn`, whose body is in
`DASolver.C`. Each returns its status, the vector it writes and the solver afterwards. -/
structure DASolverImpl (F : Type) where
  solvePrimal : Vec → Vec → DASolver F → Except Failure (label × Vec × DASolver F)
  solveLinearEqn : KSP → Vec → Vec → DASolver F → Except Failure (label × Vec × DASolver F)

namespace DASolver

variable {F : Type}

/-- The template member `DASolver::primalResidualControl` at `classType = scalar`: the solver
afterwards and what was streamed into `Info`. -/
def primalResidualControl (self : DASolver F) (solverP : SolverPerformance)
    (printToScreen printInterval : label) (varName : word) : DASolver F × List InfoItem :=
  let self :=
    if mag solverP.initialResidual < self.primalMinRes_ then
      { self with primalMinRes_ := mag solverP.initialResidual }
    else self
  let info :=
    if printToScreen ≠ 0 then
      [.str varName, .str " Initial residual: ", .num solverP.initialResidual, .endl,
       .str varName, .str "   Final residual: ", .num solverP.finalResidual, .endl]
    else []
  (self, info)

/-- The arguments of one `primalResidualControl` call. -/
structure ResidualControlCall where
  solverP : SolverPerformance
  printToScreen : label
  printInterval : label
  varName : word

/-- A sequence of `primalResidualControl` calls on the same solver, first call first. -/
def primalResidualControlSeq (self : DASolver F) (calls : List ResidualControlCall) :
    DASolver F :=
  calls.foldl
    (fun s c => (s.primalResidualControl c.solverP c.printToScreen c.printInterval c.varName).1)
    self

/-- The inline member `DASolver::ofField2StateVec`: the entries of `stateVec` and the solver
afterwards. -/
def ofField2StateVec (self : DASolver F) (stateVec : Vec) : Vec × DASolver F :=
  (self.daFieldPtr_.ofField2StateVec self.meshPtr_ stateVec, self)

/-- The inline member `DASolver::stateVec2OFField`. -/
def stateVec2OFField (self : DASolver F) (stateVec : Vec) : Vec × DASolver F :=
  (stateVec, { self with meshPtr_ := self.daFieldPtr_.stateVec2OFField stateVec self.meshPtr_ })

/-- The inline member `DASolver::pointVec2OFMesh`. -/
def pointVec2OFMesh (self : DASolver F) (xvVec : Vec) : Vec × DASolver F :=
  (xvVec, { self with meshPtr_ := self.daFieldPtr_.pointVec2OFMesh xvVec self.meshPtr_ })

/-- The inline member `DASolver::ofMesh2PointVec`. -/
def ofMesh2PointVec (self : DASolver F) (xvVec : Vec) : Vec × DASolver F :=
  (self.daFieldPtr_.ofMesh2PointVec self.meshPtr_ xvVec, self)

/-- The inline member `DASolver::resVec2OFResField`. -/
def resVec2OFResField (self : DASolver F) (resVec : Vec) : Vec × DASolver F :=
  (resVec, { self with meshPtr_ := self.daFieldPtr_.resVec2OFResField resVec self.meshPtr_ })

/-- The inline member `DASolver::ofResField2ResVec`; its body calls
`daFieldPtr_->resVec2OFResField(resVec)`. -/
def ofResField2ResVec (self : DASolver F) (resVec : Vec) : Vec × DASolver F :=
  (resVec, { self with meshPtr_ := self.daFieldPtr_.resVec2OFResField resVec self.meshPtr_ })

end DASolver

/-- The lookup `dict.getScalar(name)` of a stored objective value. -/
def dictionary.getScalar (dict : dictionary) (name : word) : Except Failure scalar :=
  match dict.find? (fun e => e.1 == name) with
  | some (_, .scalarEntry x) => .ok x
  | _ => .error .usageError

/-- Modelled from the spec: `DASolver::getTimeInstanceObjFunc` is declared in `DASolver.H` and
defined in `DASolver.C`, which is not among the sources. It retrieves the scalar stored under
the name in the objective dictionary of instance `instanceI`; an index outside
`[0, nTimeInstances)` or an unregistered name is a usage error. -/
def DASolver.getTimeInstanceObjFunc {F : Type} (self : DASolver F) (instanceI : label)
    (objFuncName : word) : Except Failure scalar :=
  if 0 ≤ instanceI ∧ instanceI < self.nTimeInstances_ then do
    let dict ← index self.objFuncsAllInstances_ instanceI.toNat
    dict.getScalar objFuncName
  else .error .usageError

/-- Modelled from the spec: `DASolver::setTimeInstanceField` is declared in `DASolver.H` and
defined in `DASolver.C`, which is not among the sources. It writes the state, boundary state,
time value and time index saved in slot `instanceI` back into the live fields; an index
outside `[0, nTimeInstances)` is a usage error. -/
def DASolver.setTimeInstanceField {F : Type} (self : DASolver F) (instanceI : label) :
    Except Failure (DASolver F) :=
  if 0 ≤ instanceI ∧ instanceI < self.nTimeInstances_ then do
    let state ← index self.stateAllInstances_ instanceI.toNat
    let stateBoundary ← index self.stateBoundaryAllInstances_ instanceI.toNat
    let t ← index self.runTimeAllInstances_ instanceI.toNat
    let tIndex ← index self.runTimeIndexAllInstances_ instanceI.toNat
    pure { self with
      runTimePtr_ := { value := t, timeIndex := tIndex }
      meshPtr_ := self.daFieldPtr_.stateVec2OFField (state ++ stateBoundary) self.meshPtr_ }
  else .error .usageError

/-! ## DASolvers, the Python wrapper -/

/-- Class `DASolvers`: `DASolverPtr_` with the solver selected at run time. -/
structure DASolvers (F : Type) where
  selected : DASolverImpl F
  DASolverPtr_ : DASolver F

namespace DASolvers

variable {F : Type}

/-- The wrapper `DASolvers::solvePrimal`: the returned label, `wVec` and the wrapper afterwards. -/
def solvePrimal (self : DASolvers F) (xvVec wVec : Vec) :
    Except Failure (label × Vec × DASolvers F) := do
  let (status, wVec, solver) ← self.selected.solvePrimal xvVec wVec self.DASolverPtr_
  return (status, wVec, { self with DASolverPtr_ := solver })

/-- The wrapper `DASolvers::solveLinearEqn`, declared `void`: what it returns, `solVec` and the
wrapper afterwards. -/
def solveLinearEqn (self : DASolvers F) (ksp : KSP) (rhsVec solVec : Vec) :
    Except Failure (Unit × Vec × DASolvers F) := do
  let (_, solVec, solver) ← self.selected.solveLinearEqn ksp rhsVec solVec self.DASolverPtr_
  return ((), solVec, { self with DASolverPtr_ := solver })

/-- The wrapper `DASolvers::ofField2StateVec`. -/
def ofField2StateVec (self : DASolvers F) (stateVec : Vec) : Vec × DASolvers F :=
  let (stateVec, solver) := self.DASolverPtr_.ofField2StateVec stateVec
  (stateVec, { self with DASolverPtr_ := solver })

/-- The wrapper `DASolvers::stateVec2OFField`. -/
def stateVec2OFField (self : DASolvers F) (stateVec : Vec) : Vec × DASolvers F :=
  let (stateVec, solver) := self.DASolverPtr_.stateVec2OFField stateVec
  (stateVec, { self with DASolverPtr_ := solver })

/-- The wrapper `DASolvers::resVec2OFResField`. -/
def resVec2OFResField (self : DASolvers F) (resVec : Vec) : Vec × DASolvers F :=
  let (resVec, solver) := self.DASolverPtr_.resVec2OFResField resVec
  (resVec, { self with DASolverPtr_ := solver })

/-- The wrapper `DASolvers::ofResField2ResVec`; its body calls
`DASolverPtr_->resVec2OFResField(resVec)`. -/
def ofResField2ResVec (self : DASolvers F) (resVec : Vec) : Vec × DASolvers F :=
  let (resVec, solver) := self.DASolverPtr_.resVec2OFResField resVec
  (resVec, { self with DASolverPtr_ := solver })

/-- The wrapper `DASolvers::setTimeInstanceField`. -/
def setTimeInstanceField (self : DASolvers F) (instanceI : label) :
    Except Failure (DASolvers F) := do
  let solver ← self.DASolverPtr_.setTimeInstanceField instanceI
  return { self with DASolverPtr_ := solver }

/-- The wrapper `DASolvers::getTimeInstanceObjFunc`. The macro `assignValueCheckAD(valA, valB)`
is defined outside these sources; it is a parameter giving the value `valA` holds afterwards. -/
def getTimeInstanceObjFunc (assignValueCheckAD : double → scalar → double)
    (self : DASolvers F) (instanceI : label) (objFuncName : word) : Except Failure double := do
  let returnVal : double := 0
  let returnVal := assignValueCheckAD returnVal
    (← self.DASolverPtr_.getTimeInstanceObjFunc instanceI objFuncName)
  return returnVal

end DASolvers

/-! ## Concrete cases used to exercise the definitions -/

/-- The OpenFOAM side of a small case, every field stored flat. -/
structure FlatFields where
  state : scalarList
  points : scalarList
  residual : scalarList
  deriving DecidableEq, Repr

/-- Modelled from the spec: the field adapter (class `DAField`, declared outside these
sources) on `FlatFields`; each conversion copies between the vector and the field of its
name, in the direction of its name. -/
def DAField.flat : DAField FlatFields where
  ofField2StateVec f _ := f.state
  stateVec2OFField v f := { f with state := v }
  pointVec2OFMesh v f := { f with points := v }
  ofMesh2PointVec f _ := f.points
  resVec2OFResField v f := { f with residual := v }
  ofResField2ResVec f _ := f.residual

/-- A selected solver that counts its calls in the `F` component and answers every solve with
the status `code`. -/
def DASolverImpl.counting (code : label) : DASolverImpl Nat where
  solvePrimal _ wVec s := .ok (code, wVec, { s with meshPtr_ := s.meshPtr_ + 1 })
  solveLinearEqn _ _ solVec s := .ok (code, solVec, { s with meshPtr_ := s.meshPtr_ + 1 })

/-- The field adapter of the counting solver: no fields to convert. -/
def DAField.none : DAField Nat where
  ofField2StateVec _ v := v
  stateVec2OFField _ f := f
  pointVec2OFMesh _ f := f
  ofMesh2PointVec _ v := v
  resVec2OFResField _ f := f
  ofResField2ResVec _ v := v

/-- A selected solver that answers every solve with the status `code` and changes nothing. -/
def DASolverImpl.steady {F : Type} (code : label) : DASolverImpl F where
  solvePrimal _ wVec s := .ok (code, wVec, s)
  solveLinearEqn _ _ solVec s := .ok (code, solVec, s)

/-- A flat case with residual fields [1, 2] and state fields [7, 8]. -/
def DASolver.flatCase : DASolver FlatFields :=
  { meshPtr_ := { state := [7, 8], points := [], residual := [1, 2] },
    daFieldPtr_ := DAField.flat }

/-- A flat case configured with two time instances, both saved. -/
def DASolver.twoInstances : DASolver FlatFields :=
  { meshPtr_ := { state := [0, 0], points := [], residual := [] },
    daFieldPtr_ := DAField.flat,
    nTimeInstances_ := 2,
    stateAllInstances_ := [[1], [2]],
    stateBoundaryAllInstances_ := [[3], [4]],
    objFuncsAllInstances_ := [[("CD", .scalarEntry 5)], [("CD", .scalarEntry 6)]],
    runTimeAllInstances_ := [10, 20],
    runTimeIndexAllInstances_ := [1, 2] }

/-- The macro `assignValueCheckAD` without automatic differentiation: plain assignment. -/
def assignValue (valA : double) (valB : scalar) : double := valB

/-! ## Forward-mode derivative table -/

/-- OpenFOAM `HashTable<T>` with `word` keys. -/
abbrev HashTable (T : Type) := List (word × T)

/-- The lookup `table.find(key)`: the stored value, if the key is present. -/
def HashTable.find {T : Type} (table : HashTable T) (key : word) : Option T :=
  (List.find? (fun e => e.1 == key) table).map (fun e => e.2)

/-- OpenFOAM `HashTable::operator[](key)`: the entry found under `key`, a FatalError when
there is none (inserting a default on a miss is `operator()`, not `operator[]`). The result
comes with the table as it stands afterwards. -/
def HashTable.subscript {T : Type} (table : HashTable T) (key : word) :
    Except Failure T × HashTable T :=
  match HashTable.find table key with
  | some v => (.ok v, table)
  | none => (.error (.notFound key), table)

/-- The inline member `DASolver::getForwardADDerivVal`: what the call yields and the solver
afterwards. -/
def DASolver.getForwardADDerivVal {F : Type} (self : DASolver F) (objFuncName : word) :
    Except Failure PetscScalar × DASolver F :=
  let (val, table) := HashTable.subscript self.forwardADDerivVal_ objFuncName
  (val, { self with forwardADDerivVal_ := table })

/-- The wrapper `DASolvers::getForwardADDerivVal`. -/
def DASolvers.getForwardADDerivVal {F : Type} (self : DASolvers F) (objFuncName : word) :
    Except Failure PetscScalar × DASolvers F :=
  let (val, solver) := self.DASolverPtr_.getForwardADDerivVal objFuncName
  (val, { self with DASolverPtr_ := solver })

/-- A flat case after a forward-mode run that stored the derivatives of CD and CL. -/
def DASolver.forwardCase : DASolver FlatFields :=
  { meshPtr_ := { state := [], points := [], residual := [] },
    daFieldPtr_ := DAField.flat,
    forwardADDerivVal_ := [("CD", 3), ("CL", 1 / 2)] }

/-! ## Fields of the objective, for comparing runs -/

/-- The cells of the mesh of an object: the pairs (p[c], V[c]). -/
def DAObjFuncMyObj.cells (self : DAObjFuncMyObj) : List (scalar × scalar) :=
  self.pField.zip self.mesh_.V

/-- The same object on the same mesh with `field` registered as `p`. -/
def DAObjFuncMyObj.withField (self : DAObjFuncMyObj) (field : volScalarField) :
    DAObjFuncMyObj :=
  { self with
    mesh_ := { self.mesh_ with
      thisDb := ("p", field) :: self.mesh_.thisDb.filter (fun e => e.1 != "p") } }

/-- The field a*p + b*q, cell by cell. -/
def linComb (a b : scalar) (p q : volScalarField) : volScalarField :=
  List.zipWith (fun x y => a * x + b * y) p q

/-! ## Derivative routines -/

/-- One argument of a derivative routine, as it is handed over. -/
inductive Arg where
  | vec (v : Vec)
  | mat (m : Mat)
  | lbl (n : label)
  | wrd (w : word)
  deriving DecidableEq, Repr

/-- A call as the solver sees it: the member called and its arguments, first to last. -/
structure CallRecord where
  member : word
  args : List Arg
  deriving DecidableEq, Repr

/-- What a member of `DASolver` that fills an output handle of type `O` does to a solver: a
failure, or the contents of the handle and the solver afterwards. -/
abbrev DerivOut (F O : Type) := DASolver F → Except Failure (O × DASolver F)

/-- The derivative members of `DASolver`. `DASolver.H` declares them and `DASolver.C`, which is
not among the sources, defines them, so they are parameters, in the order and with the
parameter types of their declarations; the last parameter is the output handle. -/
structure DASolverDerivs (F : Type) where
  calcdRdWT : Vec → Vec → label → Mat → DerivOut F Mat
  calcdRdWTPsiAD : Vec → Vec → Vec → Vec → DerivOut F Vec
  calcdFdW : Vec → Vec → word → Vec → DerivOut F Vec
  calcdRdBC : Vec → Vec → word → Mat → DerivOut F Mat
  calcdFdBC : Vec → Vec → word → word → Vec → DerivOut F Vec
  calcdRdBCTPsiAD : Vec → Vec → Vec → word → Vec → DerivOut F Vec
  calcdFdBCAD : Vec → Vec → word → word → Vec → DerivOut F Vec
  calcdRdAOA : Vec → Vec → word → Mat → DerivOut F Mat
  calcdFdAOA : Vec → Vec → word → word → Vec → DerivOut F Vec
  calcdRdAOATPsiAD : Vec → Vec → Vec → word → Vec → DerivOut F Vec
  calcdRdFFD : Vec → Vec → word → Mat → DerivOut F Mat
  calcdFdFFD : Vec → Vec → word → word → Vec → DerivOut F Vec
  calcdRdACT : Vec → Vec → word → word → Mat → DerivOut F Mat
  calcdFdACT : Vec → Vec → word → word → word → Vec → DerivOut F Vec
  calcdRdFieldTPsiAD : Vec → Vec → Vec → word → Vec → DerivOut F Vec
  calcdFdFieldAD : Vec → Vec → word → word → Vec → DerivOut F Vec
  calcdFdWAD : Vec → Vec → word → Vec → DerivOut F Vec
  calcdRdXvTPsiAD : Vec → Vec → Vec → Vec → DerivOut F Vec
  calcdForcedXvAD : Vec → Vec → Vec → Vec → DerivOut F Vec
  calcdFdXvAD : Vec → Vec → word → word → Vec → DerivOut F Vec
  calcdRdActTPsiAD : Vec → Vec → Vec → word → Vec → DerivOut F Vec
  calcdForcedWAD : Vec → Vec → Vec → Vec → DerivOut F Vec
  calcdFdACTAD : Vec → Vec → word → word → Vec → DerivOut F Vec
  calcdRdWOldTPsiAD : label → Vec → Vec → DerivOut F Vec
  calcdForcedStateTPsiAD : word → Vec → Vec → Vec → Vec → DerivOut F Vec

namespace DASolvers

variable {F : Type}

/-- The wrapper `DASolvers::calcdRdWT`. -/
def calcdRdWT (d : DASolverDerivs F) (self : DASolvers F)
    (xvVec wVec : Vec) (isPC : label) (dRdWT : Mat) :
    Except Failure (Mat × DASolvers F) := do
  let (dRdWT, solver) ← d.calcdRdWT xvVec wVec isPC dRdWT self.DASolverPtr_
  return (dRdWT, { self with DASolverPtr_ := solver })

/-- The wrapper `DASolvers::calcdFdW`. -/
def calcdFdW (d : DASolverDerivs F) (self : DASolvers F)
    (xvVec wVec : Vec) (objFuncName : word) (dFdW : Vec) :
    Except Failure (Vec × DASolvers F) := do
  let (dFdW, solver) ← d.calcdFdW xvVec wVec objFuncName dFdW self.DASolverPtr_
  return (dFdW, { self with DASolverPtr_ := solver })

/-- The wrapper `DASolvers::calcdFdWAD`. -/
def calcdFdWAD (d : DASolverDerivs F) (self : DASolvers F)
    (xvVec wVec : Vec) (objFuncName : word) (dFdW : Vec) :
    Except Failure (Vec × DASolvers F) := do
  let (dFdW, solver) ← d.calcdFdWAD xvVec wVec objFuncName dFdW self.DASolverPtr_
  return (dFdW, { self with DASolverPtr_ := solver })

/-- The wrapper `DASolvers::calcdFdXvAD`. -/
def calcdFdXvAD (d : DASolverDerivs F) (self : DASolvers F)
    (xvVec wVec : Vec) (objFuncName designVarName : word) (dFdXv : Vec) :
    Except Failure (Vec × DASolvers F) := do
  let (dFdXv, solver) ←
    d.calcdFdXvAD xvVec wVec objFuncName designVarName dFdXv self.DASolverPtr_
  return (dFdXv, { self with DASolverPtr_ := solver })

/-- The wrapper `DASolvers::calcdRdXvTPsiAD`. -/
def calcdRdXvTPsiAD (d : DASolverDerivs F) (self : DASolvers F)
    (xvVec wVec psi dRdXvTPsi : Vec) :
    Except Failure (Vec × DASolvers F) := do
  let (dRdXvTPsi, solver) ← d.calcdRdXvTPsiAD xvVec wVec psi dRdXvTPsi self.DASolverPtr_
  return (dRdXvTPsi, { self with DASolverPtr_ := solver })

/-- The wrapper `DASolvers::calcdForcedXvAD`. -/
def calcdForcedXvAD (d : DASolverDerivs F) (self : DASolvers F)
    (xvVec wVec fBarVec dForcedW : Vec) :
    Except Failure (Vec × DASolvers F) := do
  let (dForcedW, solver) ← d.calcdForcedXvAD xvVec wVec fBarVec dForcedW self.DASolverPtr_
  return (dForcedW, { self with DASolverPtr_ := solver })

/-- The wrapper `DASolvers::calcdRdActTPsiAD`. -/
def calcdRdActTPsiAD (d : DASolverDerivs F) (self : DASolvers F)
    (xvVec wVec psi : Vec) (designVarName : word) (dRdActTPsi : Vec) :
    Except Failure (Vec × DASolvers F) := do
  let (dRdActTPsi, solver) ←
    d.calcdRdActTPsiAD xvVec wVec psi designVarName dRdActTPsi self.DASolverPtr_
  return (dRdActTPsi, { self with DASolverPtr_ := solver })

/-- The wrapper `DASolvers::calcdForcedWAD`. -/
def calcdForcedWAD (d : DASolverDerivs F) (self : DASolvers F)
    (xvVec wVec fBarVec dForcedW : Vec) :
    Except Failure (Vec × DASolvers F) := do
  let (dForcedW, solver) ← d.calcdForcedWAD xvVec wVec fBarVec dForcedW self.DASolverPtr_
  return (dForcedW, { self with DASolverPtr_ := solver })

/-- The wrapper `DASolvers::calcdRdAOATPsiAD`. -/
def calcdRdAOATPsiAD (d : DASolverDerivs F) (self : DASolvers F)
    (xvVec wVec psi : Vec) (designVarName : word) (dRdAOATPsi : Vec) :
    Except Failure (Vec × DASolvers F) := do
  let (dRdAOATPsi, solver) ←
    d.calcdRdAOATPsiAD xvVec wVec psi designVarName dRdAOATPsi self.DASolverPtr_
  return (dRdAOATPsi, { self with DASolverPtr_ := solver })

/-- The wrapper `DASolvers::calcdRdBC`. -/
def calcdRdBC (d : DASolverDerivs F) (self : DASolvers F)
    (xvVec wVec : Vec) (designVarName : word) (dRdBC : Mat) :
    Except Failure (Mat × DASolvers F) := do
  let (dRdBC, solver) ← d.calcdRdBC xvVec wVec designVarName dRdBC self.DASolverPtr_
  return (dRdBC, { self with DASolverPtr_ := solver })

/-- The wrapper `DASolvers::calcdFdBC`. -/
def calcdFdBC (d : DASolverDerivs F) (self : DASolvers F)
    (xvVec wVec : Vec) (objFuncName designVarName : word) (dFdBC : Vec) :
    Except Failure (Vec × DASolvers F) := do
  let (dFdBC, solver) ← d.calcdFdBC xvVec wVec objFuncName designVarName dFdBC self.DASolverPtr_
  return (dFdBC, { self with DASolverPtr_ := solver })

/-- The wrapper `DASolvers::calcdFdBCAD`. -/
def calcdFdBCAD (d : DASolverDerivs F) (self : DASolvers F)
    (xvVec wVec : Vec) (objFuncName designVarName : word) (dFdBC : Vec) :
    Except Failure (Vec × DASolvers F) := do
  let (dFdBC, solver) ←
    d.calcdFdBCAD xvVec wVec objFuncName designVarName dFdBC self.DASolverPtr_
  return (dFdBC, { self with DASolverPtr_ := solver })

/-- The wrapper `DASolvers::calcdRdBCTPsiAD`. -/
def calcdRdBCTPsiAD (d : DASolverDerivs F) (self : DASolvers F)
    (xvVec wVec psi : Vec) (designVarName : word) (dRdBCTPsi : Vec) :
    Except Failure (Vec × DASolvers F) := do
  let (dRdBCTPsi, solver) ←
    d.calcdRdBCTPsiAD xvVec wVec psi designVarName dRdBCTPsi self.DASolverPtr_
  return (dRdBCTPsi, { self with DASolverPtr_ := solver })

/-- The wrapper `DASolvers::calcdRdAOA`. -/
def calcdRdAOA (d : DASolverDerivs F) (self : DASolvers F)
    (xvVec wVec : Vec) (designVarName : word) (dRdAOA : Mat) :
    Except Failure (Mat × DASolvers F) := do
  let (dRdAOA, solver) ← d.calcdRdAOA xvVec wVec designVarName dRdAOA self.DASolverPtr_
  return (dRdAOA, { self with DASolverPtr_ := solver })

/-- The wrapper `DASolvers::calcdFdAOA`. -/
def calcdFdAOA (d : DASolverDerivs F) (self : DASolvers F)
    (xvVec wVec : Vec) (objFuncName designVarName : word) (dFdAOA : Vec) :
    Except Failure (Vec × DASolvers F) := do
  let (dFdAOA, solver) ←
    d.calcdFdAOA xvVec wVec objFuncName designVarName dFdAOA self.DASolverPtr_
  return (dFdAOA, { self with DASolverPtr_ := solver })

/-- The wrapper `DASolvers::calcdRdFFD`. -/
def calcdRdFFD (d : DASolverDerivs F) (self : DASolvers F)
    (xvVec wVec : Vec) (designVarName : word) (dRdFFD : Mat) :
    Except Failure (Mat × DASolvers F) := do
  let (dRdFFD, solver) ← d.calcdRdFFD xvVec wVec designVarName dRdFFD self.DASolverPtr_
  return (dRdFFD, { self with DASolverPtr_ := solver })

/-- The wrapper `DASolvers::calcdFdFFD`. -/
def calcdFdFFD (d : DASolverDerivs F) (self : DASolvers F)
    (xvVec wVec : Vec) (objFuncName designVarName : word) (dFdFFD : Vec) :
    Except Failure (Vec × DASolvers F) := do
  let (dFdFFD, solver) ←
    d.calcdFdFFD xvVec wVec objFuncName designVarName dFdFFD self.DASolverPtr_
  return (dFdFFD, { self with DASolverPtr_ := solver })

/-- The wrapper `DASolvers::calcdRdACT`. -/
def calcdRdACT (d : DASolverDerivs F) (self : DASolvers F)
    (xvVec wVec : Vec) (designVarName designVarType : word) (dRdACT : Mat) :
    Except Failure (Mat × DASolvers F) := do
  let (dRdACT, solver) ←
    d.calcdRdACT xvVec wVec designVarName designVarType dRdACT self.DASolverPtr_
  return (dRdACT, { self with DASolverPtr_ := solver })

/-- The wrapper `DASolvers::calcdFdACTAD`. -/
def calcdFdACTAD (d : DASolverDerivs F) (self : DASolvers F)
    (xvVec wVec : Vec) (objFuncName designVarName : word) (dFdACT : Vec) :
    Except Failure (Vec × DASolvers F) := do
  let (dFdACT, solver) ←
    d.calcdFdACTAD xvVec wVec objFuncName designVarName dFdACT self.DASolverPtr_
  return (dFdACT, { self with DASolverPtr_ := solver })

/-- The wrapper `DASolvers::calcdFdACT`. -/
def calcdFdACT (d : DASolverDerivs F) (self : DASolvers F)
    (xvVec wVec : Vec) (objFuncName designVarName designVarType : word) (dFdACT : Vec) :
    Except Failure (Vec × DASolvers F) := do
  let (dFdACT, solver) ←
    d.calcdFdACT xvVec wVec objFuncName designVarName designVarType dFdACT self.DASolverPtr_
  return (dFdACT, { self with DASolverPtr_ := solver })

/-- The wrapper `DASolvers::calcdRdFieldTPsiAD`. -/
def calcdRdFieldTPsiAD (d : DASolverDerivs F) (self : DASolvers F)
    (xvVec wVec psi : Vec) (designVarName : word) (dRdFieldTPsi : Vec) :
    Except Failure (Vec × DASolvers F) := do
  let (dRdFieldTPsi, solver) ←
    d.calcdRdFieldTPsiAD xvVec wVec psi designVarName dRdFieldTPsi self.DASolverPtr_
  return (dRdFieldTPsi, { self with DASolverPtr_ := solver })

/-- The wrapper `DASolvers::calcdFdFieldAD`. -/
def calcdFdFieldAD (d : DASolverDerivs F) (self : DASolvers F)
    (xvVec wVec : Vec) (objFuncName designVarName : word) (dFdField : Vec) :
    Except Failure (Vec × DASolvers F) := do
  let (dFdField, solver) ←
    d.calcdFdFieldAD xvVec wVec objFuncName designVarName dFdField self.DASolverPtr_
  return (dFdField, { self with DASolverPtr_ := solver })

/-- The wrapper `DASolvers::calcdRdWOldTPsiAD`. -/
def calcdRdWOldTPsiAD (d : DASolverDerivs F) (self : DASolvers F)
    (oldTimeLevel : label) (psi dRdWOldTPsi : Vec) :
    Except Failure (Vec × DASolvers F) := do
  let (dRdWOldTPsi, solver) ← d.calcdRdWOldTPsiAD oldTimeLevel psi dRdWOldTPsi self.DASolverPtr_
  return (dRdWOldTPsi, { self with DASolverPtr_ := solver })

/-- The wrapper `DASolvers::calcdRdWTPsiAD`. -/
def calcdRdWTPsiAD (d : DASolverDerivs F) (self : DASolvers F)
    (xvVec wVec psi dRdWTPsi : Vec) :
    Except Failure (Vec × DASolvers F) := do
  let (dRdWTPsi, solver) ← d.calcdRdWTPsiAD xvVec wVec psi dRdWTPsi self.DASolverPtr_
  return (dRdWTPsi, { self with DASolverPtr_ := solver })

/-- The wrapper `DASolvers::calcdForcedStateTPsiAD`. -/
def calcdForcedStateTPsiAD (d : DASolverDerivs F) (self : DASolvers F)
    (mode : word) (xvVec stateVec psiVec prodVec : Vec) :
    Except Failure (Vec × DASolvers F) := do
  let (prodVec, solver) ←
    d.calcdForcedStateTPsiAD mode xvVec stateVec psiVec prodVec self.DASolverPtr_
  return (prodVec, { self with DASolverPtr_ := solver })

/-- One call made on the held solver, seen from the wrapper: the same failure, or the same
output with the solver afterwards held by the wrapper. -/
def afterCall {O : Type} (self : DASolvers F) (r : Except Failure (O × DASolver F)) :
    Except Failure (O × DASolvers F) :=
  r.map (fun x => (x.1, { self with DASolverPtr_ := x.2 }))

end DASolvers

/-- The solver after the call `member(args)` has been appended to its log. -/
def DASolver.logCall (s : DASolver (List CallRecord)) (member : word) (args : List Arg) :
    DASolver (List CallRecord) :=
  { s with meshPtr_ := s.meshPtr_ ++ [⟨member, args⟩] }

/-- A solver whose derivative members do nothing but append the call they receive to a log
kept in the `F` component, leaving the output handle as handed in. -/
def DASolverDerivs.recording : DASolverDerivs (List CallRecord) where
  calcdRdWT xvVec wVec isPC dRdWT s :=
    .ok (dRdWT, s.logCall "calcdRdWT"
      [.vec xvVec, .vec wVec, .lbl isPC, .mat dRdWT])
  calcdRdWTPsiAD xvVec wVec psi dRdWTPsi s :=
    .ok (dRdWTPsi, s.logCall "calcdRdWTPsiAD"
      [.vec xvVec, .vec wVec, .vec psi, .vec dRdWTPsi])
  calcdFdW xvVec wVec objFuncName dFdW s :=
    .ok (dFdW, s.logCall "calcdFdW"
      [.vec xvVec, .vec wVec, .wrd objFuncName, .vec dFdW])
  calcdRdBC xvVec wVec designVarName dRdBC s :=
    .ok (dRdBC, s.logCall "calcdRdBC"
      [.vec xvVec, .vec wVec, .wrd designVarName, .mat dRdBC])
  calcdFdBC xvVec wVec objFuncName designVarName dFdBC s :=
    .ok (dFdBC, s.logCall "calcdFdBC"
      [.vec xvVec, .vec wVec, .wrd objFuncName, .wrd designVarName, .vec dFdBC])
  calcdRdBCTPsiAD xvVec wVec psi designVarName dRdBCTPsi s :=
    .ok (dRdBCTPsi, s.logCall "calcdRdBCTPsiAD"
      [.vec xvVec, .vec wVec, .vec psi, .wrd designVarName, .vec dRdBCTPsi])
  calcdFdBCAD xvVec wVec objFuncName designVarName dFdBC s :=
    .ok (dFdBC, s.logCall "calcdFdBCAD"
      [.vec xvVec, .vec wVec, .wrd objFuncName, .wrd designVarName, .vec dFdBC])
  calcdRdAOA xvVec wVec designVarName dRdAOA s :=
    .ok (dRdAOA, s.logCall "calcdRdAOA"
      [.vec xvVec, .vec wVec, .wrd designVarName, .mat dRdAOA])
  calcdFdAOA xvVec wVec objFuncName designVarName dFdAOA s :=
    .ok (dFdAOA, s.logCall "calcdFdAOA"
      [.vec xvVec, .vec wVec, .wrd objFuncName, .wrd designVarName, .vec dFdAOA])
  calcdRdAOATPsiAD xvVec wVec psi designVarName dRdAOATPsi s :=
    .ok (dRdAOATPsi, s.logCall "calcdRdAOATPsiAD"
      [.vec xvVec, .vec wVec, .vec psi, .wrd designVarName, .vec dRdAOATPsi])
  calcdRdFFD xvVec wVec designVarName dRdFFD s :=
    .ok (dRdFFD, s.logCall "calcdRdFFD"
      [.vec xvVec, .vec wVec, .wrd designVarName, .mat dRdFFD])
  calcdFdFFD xvVec wVec objFuncName designVarName dFdFFD s :=
    .ok (dFdFFD, s.logCall "calcdFdFFD"
      [.vec xvVec, .vec wVec, .wrd objFuncName, .wrd designVarName, .vec dFdFFD])
  calcdRdACT xvVec wVec designVarName designVarType dRdACT s :=
    .ok (dRdACT, s.logCall "calcdRdACT"
      [.vec xvVec, .vec wVec, .wrd designVarName, .wrd designVarType, .mat dRdACT])
  calcdFdACT xvVec wVec objFuncName designVarName designVarType dFdACT s :=
    .ok (dFdACT, s.logCall "calcdFdACT"
      [.vec xvVec, .vec wVec, .wrd objFuncName,
       .wrd designVarName, .wrd designVarType, .vec dFdACT])
  calcdRdFieldTPsiAD xvVec wVec psi designVarName dRdFieldTPsi s :=
    .ok (dRdFieldTPsi, s.logCall "calcdRdFieldTPsiAD"
      [.vec xvVec, .vec wVec, .vec psi, .wrd designVarName, .vec dRdFieldTPsi])
  calcdFdFieldAD xvVec wVec objFuncName designVarName dFdField s :=
    .ok (dFdField, s.logCall "calcdFdFieldAD"
      [.vec xvVec, .vec wVec, .wrd objFuncName, .wrd designVarName, .vec dFdField])
  calcdFdWAD xvVec wVec objFuncName dFdW s :=
    .ok (dFdW, s.logCall "calcdFdWAD"
      [.vec xvVec, .vec wVec, .wrd objFuncName, .vec dFdW])
  calcdRdXvTPsiAD xvVec wVec psi dRdXvTPsi s :=
    .ok (dRdXvTPsi, s.logCall "calcdRdXvTPsiAD"
      [.vec xvVec, .vec wVec, .vec psi, .vec dRdXvTPsi])
  calcdForcedXvAD xvVec wVec fBarVec dForcedW s :=
    .ok (dForcedW, s.logCall "calcdForcedXvAD"
      [.vec xvVec, .vec wVec, .vec fBarVec, .vec dForcedW])
  calcdFdXvAD xvVec wVec objFuncName designVarName dFdXv s :=
    .ok (dFdXv, s.logCall "calcdFdXvAD"
      [.vec xvVec, .vec wVec, .wrd objFuncName, .wrd designVarName, .vec dFdXv])
  calcdRdActTPsiAD xvVec wVec psi designVarName dRdActTPsi s :=
    .ok (dRdActTPsi, s.logCall "calcdRdActTPsiAD"
      [.vec xvVec, .vec wVec, .vec psi, .wrd designVarName, .vec dRdActTPsi])
  calcdForcedWAD xvVec wVec fBarVec dForcedW s :=
    .ok (dForcedW, s.logCall "calcdForcedWAD"
      [.vec xvVec, .vec wVec, .vec fBarVec, .vec dForcedW])
  calcdFdACTAD xvVec wVec objFuncName designVarName dFdACT s :=
    .ok (dFdACT, s.logCall "calcdFdACTAD"
      [.vec xvVec, .vec wVec, .wrd objFuncName, .wrd designVarName, .vec dFdACT])
  calcdRdWOldTPsiAD oldTimeLevel psi dRdWOldTPsi s :=
    .ok (dRdWOldTPsi, s.logCall "calcdRdWOldTPsiAD"
      [.lbl oldTimeLevel, .vec psi, .vec dRdWOldTPsi])
  calcdForcedStateTPsiAD mode xvVec stateVec psiVec prodVec s :=
    .ok (prodVec, s.logCall "calcdForcedStateTPsiAD"
      [.wrd mode, .vec xvVec, .vec stateVec, .vec psiVec, .vec prodVec])

/-- The field adapter of the recording solver: no fields to convert. -/
def DAField.idle : DAField (List CallRecord) where
  ofField2StateVec _ v := v
  stateVec2OFField _ f := f
  pointVec2OFMesh _ f := f
  ofMesh2PointVec _ v := v
  resVec2OFResField _ f := f
  ofResField2ResVec _ v := v

/-! ## Construction of DAObjFuncMyObj -/

/-- The entry a dictionary holds under a keyword, if any. -/
def dictionary.lookup (dict : dictionary) (keyword : word) : Option entry :=
  (List.find? (fun e => e.1 == keyword) dict).map (fun e => e.2)

/-- OpenFOAM `dictionary::readEntry<word>(keyword, val)` with its default `mandatory = true`:
the word to assign to `val`; a FatalIOError when the dictionary has no word under the
keyword. -/
def dictionary.readEntryWord (dict : dictionary) (keyword : word) : Except Failure word :=
  match dict.lookup keyword with
  | some (.wordEntry w) => .ok w
  | _ => .error (.notFound keyword)

/-- Modelled from the spec: the constructor of the base class `DAObjFunc` (`DAObjFunc.C`, not
among the sources), as far as the members of the model go: the evaluator instance is
created from its configuration, keeping the mesh, the objective name, the part and the
objective dictionary in the members of these names; `objFuncType_` starts as the empty word.
The option, model, index and residual objects it also receives are not modelled. -/
def DAObjFunc.new (mesh : fvMesh) (objFuncName objFuncPart : word) (objFuncDict : dictionary) :
    DAObjFuncMyObj :=
  { mesh_ := mesh, objFuncName_ := objFuncName, objFuncPart_ := objFuncPart,
    objFuncDict_ := objFuncDict, objFuncType_ := "" }

/-- The constructor `DAObjFuncMyObj::DAObjFuncMyObj`: the base-class constructor, then the
body. -/
def DAObjFuncMyObj.new (mesh : fvMesh) (objFuncName objFuncPart : word)
    (objFuncDict : dictionary) : Except Failure DAObjFuncMyObj := do
  let self := DAObjFunc.new mesh objFuncName objFuncPart objFuncDict
  -- Assign type, this is common for all objectives
  let objFuncType_ ← self.objFuncDict_.readEntryWord "type"
  return { self with objFuncType_ := objFuncType_ }

/-! ## Double-precision arithmetic

The definitions above compute with exact scalars. The source computes with `double`: every
product and every sum is rounded to the nearest binary64 value. The definitions below embed
the same objective with that rounding, for the statements that are about the value itself. -/

/-- An IEEE 754 binary64 value: the number `m * 2^e`, an infinity, or a NaN. A finite value
is kept with `m` odd (or `m = 0`, `e = 0`); the sign of a zero is not tracked. -/
inductive Double where
  | finite (m e : ℤ)
  | inf (negative : Bool)
  | nan
  deriving DecidableEq, Repr

/-- Number of binary digits of `n`; `fuel` bounds the number of halvings. -/
def bitLengthAux : Nat → Nat → Nat
  | 0, _ => 0
  | fuel + 1, n => if n = 0 then 0 else bitLengthAux fuel (n / 2) + 1

/-- Number of binary digits of `n` (0 for 0). -/
def bitLength (n : Nat) : Nat := bitLengthAux n n

/-- Number of trailing zero bits of `n`; `fuel` bounds the number of halvings. -/
def trailingZerosAux : Nat → Nat → Nat
  | 0, _ => 0
  | fuel + 1, n => if n = 0 ∨ n % 2 = 1 then 0 else trailingZerosAux fuel (n / 2) + 1

/-- Number of trailing zero bits of `n` (0 for 0). -/
def trailingZeros (n : Nat) : Nat := trailingZerosAux n n

/-- The finite value `± a * 2^e` in the kept form. -/
def Double.normal (negative : Bool) (a : Nat) (e : ℤ) : Double :=
  if a = 0 then .finite 0 0
  else
    let t := trailingZeros a
    .finite (if negative then -((a / 2 ^ t : Nat) : ℤ) else ((a / 2 ^ t : Nat) : ℤ)) (e + t)

/-- The exact number `m * 2^e` rounded to binary64, to nearest with ties to even: at most 53
significant bits, no bit below `2^-1074`, and an infinity from `2^1024` on. -/
def Double.round (m e : ℤ) : Double :=
  let a := m.natAbs
  let k : ℤ := bitLength a
  let drop : Nat := (if k - 53 < -1074 - e then -1074 - e else k - 53).toNat
  let q := a / 2 ^ drop
  let rem := a % 2 ^ drop
  let half := 2 ^ drop / 2
  let q := if drop = 0 then q
    else if half < rem ∨ (rem = half ∧ q % 2 = 1) then q + 1 else q
  if 1024 < (bitLength q : ℤ) + (e + drop) then .inf (decide (m < 0))
  else Double.normal (decide (m < 0)) q (e + drop)

/-- The double nearest to an integer. -/
def Double.ofInt (n : ℤ) : Double := Double.round n 0

/-- The value `0.0`. -/
def Double.zero : Double := .finite 0 0

/-- The rational number a finite double stands for. -/
def Double.toRat : Double → Option ℚ
  | .finite m e => some (m * 2 ^ e)
  | _ => none

/-- The operation `x + y` on doubles. -/
def Double.add : Double → Double → Double
  | .nan, _ => .nan
  | _, .nan => .nan
  | .inf s, .inf t => if s = t then .inf s else .nan
  | .inf s, .finite _ _ => .inf s
  | .finite _ _, .inf t => .inf t
  | .finite m1 e1, .finite m2 e2 =>
    let e := if e1 ≤ e2 then e1 else e2
    Double.round (m1 * 2 ^ (e1 - e).toNat + m2 * 2 ^ (e2 - e).toNat) e

/-- The operation `x * y` on doubles. -/
def Double.mul : Double → Double → Double
  | .nan, _ => .nan
  | _, .nan => .nan
  | .inf s, .inf t => .inf (s != t)
  | .inf s, .finite m _ => if m = 0 then .nan else .inf (s != decide (m < 0))
  | .finite m _, .inf t => if m = 0 then .nan else .inf (decide (m < 0) != t)
  | .finite m1 e1, .finite m2 e2 => Double.round (m1 * m2) (e1 + e2)

/-- The part of `fvMesh` the objective reads, holding doubles. -/
structure fvMeshDouble where
  V : List Double
  thisDb : List (word × List Double)

/-- The call `db.lookupObject<volScalarField>(name)` on a registry of double fields. -/
def fvMeshDouble.lookupObject (db : List (word × List Double)) (name : word) :
    Except Failure (List Double) :=
  match db.find? (fun e => e.1 == name) with
  | some e => .ok e.2
  | none => .error (.notFound name)

/-- The three reference parameters `calcObjFunc` may write, as doubles. -/
structure ObjFuncOutDouble where
  objFuncFaceValues : List Double
  objFuncCellValues : List Double
  objFuncValue : Double
  deriving DecidableEq, Repr

/-- The method `DAObjFuncMyObj::calcObjFunc` on one process, computed in double precision on
the mesh `mesh_`; `others` are the values the other processes hand to the collective
`reduce`, combined here in the order given. -/
def DAObjFuncMyObj.calcObjFuncDouble (mesh_ : fvMeshDouble) (others : List Double)
    (objFuncFaceSources objFuncCellSources : labelList)
    (objFuncFaceValues objFuncCellValues : List Double) (objFuncValue : Double) :
    Except Failure ObjFuncOutDouble := do
  let objFuncValue : Double := Double.zero
  let db := mesh_.thisDb
  let p ← fvMeshDouble.lookupObject db "p"
  let objFuncValue ← forAll p (fun cellI objFuncValue => do
    let pI ← index p cellI
    let vI ← index mesh_.V cellI
    pure (Double.add objFuncValue (Double.mul pI vI))) objFuncValue
  -- need to reduce the sum of force across all processors
  let objFuncValue := others.foldl Double.add objFuncValue
  return { objFuncFaceValues, objFuncCellValues, objFuncValue }


/-! ## Theorems -/

/-! ### Helper lemmas -/

theorem index_drop_cons {α : Type} (l : List α) (s : Nat) (a : α) (t : List α)
    (h : l.drop s = a :: t) : index l s = .ok a ∧ l.drop (s + 1) = t := by
  have h1 : l[s]? = some a := by
    have := List.head?_drop l s
    rw [h] at this
    simpa using this.symm
  have h2 : l.drop (s + 1) = t := by
    have := List.tail_drop l s
    rw [h] at this
    simpa using this.symm
  exact ⟨by simp [index, h1], h2⟩

theorem loop_range_from (p0 V0 : scalarList) :
    ∀ (p V : scalarList) (s : Nat) (init : scalar), p0.drop s = p → V0.drop s = V →
      p.length = V.length →
      (List.range' s p.length).foldlM (fun (st : scalar) i => (do
          let pI ← index p0 i
          let vI ← index V0 i
          pure (st + pI * vI) : Except Failure scalar)) init
        = .ok (init + (List.zipWith (· * ·) p V).sum) := by
  intro p
  induction p with
  | nil => intro V s init _ _ _; simp [pure, Except.pure]
  | cons a p ih =>
    intro V s init hp hV hlen
    cases V with
    | nil => simp at hlen
    | cons b V =>
      obtain ⟨ha, hp1⟩ := index_drop_cons p0 s a p hp
      obtain ⟨hb, hV1⟩ := index_drop_cons V0 s b V hV
      have hlen1 : p.length = V.length := by simpa using hlen
      simp only [List.length_cons, List.range'_succ, List.foldlM_cons, ha, hb]
      have := ih V (s + 1) (init + a * b) hp1 hV1 hlen1
      simp only [bind, Except.bind, pure, Except.pure] at this ⊢
      rw [this]
      simp [add_assoc]

theorem forAll_sum (p V : scalarList) (h : p.length = V.length) (init : scalar) :
    forAll p (fun cellI objFuncValue => do
      let pI ← index p cellI
      let vI ← index V cellI
      pure (objFuncValue + pI * vI)) init
      = .ok (init + (List.zipWith (· * ·) p V).sum) := by
  unfold forAll
  rw [List.range_eq_range']
  exact loop_range_from p V p V 0 init rfl rfl h

theorem reduce_sumOp (x : scalar) (others : List scalar) :
    reduce x sumOp others = x + others.sum := by
  unfold reduce
  induction others generalizing x with
  | nil => simp
  | cons o os ih => simp [List.foldl_cons, ih, sumOp, add_assoc]

theorem calcObjFunc_eq (self : DAObjFuncMyObj) (p : scalarList) (others : List scalar)
    (fs cs : labelList) (fv cv : scalarList) (v0 : scalar)
    (hp : self.mesh_.thisDb.lookupObject "p" = .ok p) (hlen : p.length = self.mesh_.V.length) :
    self.calcObjFunc others fs cs fv cv v0
      = .ok ⟨fv, cv, (List.zipWith (· * ·) p self.mesh_.V).sum + others.sum⟩ := by
  unfold DAObjFuncMyObj.calcObjFunc
  have hloop := forAll_sum p self.mesh_.V hlen 0
  simp only [bind, Except.bind, pure, Except.pure] at hloop
  simp only [hp, bind, Except.bind, hloop, pure, Except.pure, reduce_sumOp, zero_add]

theorem mapM_ok {α β : Type} (f : α → Except Failure β) (g : α → β) :
    ∀ (l : List α), (∀ x ∈ l, f x = .ok (g x)) → l.mapM f = .ok (l.map g) := by
  intro l
  induction l with
  | nil => intro _; rfl
  | cons a l ih =>
    intro h
    have ha := h a (List.mem_cons_self a l)
    have hl := ih (fun x hx => h x (List.mem_cons_of_mem a hx))
    rw [List.mapM_cons, ha, hl]
    rfl

theorem sum_eraseIdx_add (c : List scalar) (i : Nat) (h : i < c.length) :
    c.get ⟨i, h⟩ + (c.eraseIdx i).sum = c.sum := by
  induction c generalizing i with
  | nil => simp at h
  | cons a c ih =>
    cases i with
    | zero => simp
    | succ i =>
      simp only [List.eraseIdx_cons_succ, List.sum_cons, List.get_cons_succ]
      have := ih i (by simpa using h)
      linarith


theorem contribution_eq (self : DAObjFuncMyObj) (p : scalarList) (a : ObjFuncArgs)
    (hp : self.mesh_.thisDb.lookupObject "p" = .ok p) (hlen : p.length = self.mesh_.V.length) :
    self.contribution a = .ok (List.zipWith (· * ·) p self.mesh_.V).sum := by
  unfold DAObjFuncMyObj.contribution
  rw [calcObjFunc_eq self p [] _ _ _ _ _ hp hlen]
  simp [bind, Except.bind, pure, Except.pure]

theorem calcObjFuncAllProcs_eq (procs : List (DAObjFuncMyObj × ObjFuncArgs))
    (h : ∀ pa ∈ procs, ∃ p, pa.1.mesh_.thisDb.lookupObject "p" = .ok p
      ∧ p.length = pa.1.mesh_.V.length) :
    DAObjFuncMyObj.calcObjFuncAllProcs procs
      = .ok (procs.map (fun pa => ⟨pa.2.objFuncFaceValues, pa.2.objFuncCellValues,
          (procs.map (fun q => (List.zipWith (· * ·) q.1.pField q.1.mesh_.V).sum)).sum⟩)) := by
  have hwf : ∀ pa ∈ procs, pa.1.mesh_.thisDb.lookupObject "p" = .ok pa.1.pField
      ∧ pa.1.pField.length = pa.1.mesh_.V.length := by
    intro pa hpa
    obtain ⟨p, hp, hlen⟩ := h pa hpa
    have : pa.1.pField = p := by simp [DAObjFuncMyObj.pField, hp]
    rw [this]; exact ⟨hp, hlen⟩
  unfold DAObjFuncMyObj.calcObjFuncAllProcs
  have hc := mapM_ok (fun pa : DAObjFuncMyObj × ObjFuncArgs => pa.1.contribution pa.2)
    (fun q => (List.zipWith (· * ·) q.1.pField q.1.mesh_.V).sum) procs
    (fun pa hpa => contribution_eq pa.1 _ pa.2 (hwf pa hpa).1 (hwf pa hpa).2)
  rw [hc]
  simp only [bind, Except.bind]
  set c := procs.map (fun q => (List.zipWith (· * ·) q.1.pField q.1.mesh_.V).sum) with hcdef
  have he := mapM_ok (fun ipa : Nat × DAObjFuncMyObj × ObjFuncArgs =>
      ipa.2.1.calcObjFunc (c.eraseIdx ipa.1) ipa.2.2.objFuncFaceSources
        ipa.2.2.objFuncCellSources ipa.2.2.objFuncFaceValues ipa.2.2.objFuncCellValues
        ipa.2.2.objFuncValue)
    (fun ipa => ⟨ipa.2.2.objFuncFaceValues, ipa.2.2.objFuncCellValues, c.sum⟩) procs.enum ?_
  · rw [he]
    congr 1
    have hs := List.enum_map_snd procs
    calc procs.enum.map (fun ipa => (⟨ipa.2.2.objFuncFaceValues, ipa.2.2.objFuncCellValues,
            c.sum⟩ : ObjFuncOut))
        = (procs.enum.map Prod.snd).map (fun pa => (⟨pa.2.objFuncFaceValues,
            pa.2.objFuncCellValues, c.sum⟩ : ObjFuncOut)) := by
          rw [List.map_map]; rfl
      _ = _ := by rw [hs]
  · rintro ⟨i, pa⟩ hmem
    have hget : procs[i]? = some pa := List.mk_mem_enum_iff_getElem?.mp hmem
    obtain ⟨hi, hpa⟩ := List.getElem?_eq_some.mp hget
    have hin : pa ∈ procs := hpa ▸ List.getElem_mem hi
    have hic : i < c.length := by simp [hcdef, hi]
    have hci : c.get ⟨i, hic⟩ = (List.zipWith (· * ·) pa.1.pField pa.1.mesh_.V).sum := by
      simp [hcdef, hpa]
    simp only
    rw [calcObjFunc_eq pa.1 pa.1.pField _ _ _ _ _ _ (hwf pa hin).1 (hwf pa hin).2, ← hci,
      sum_eraseIdx_add c i hic]



theorem forall₂_pField (procs : List (DAObjFuncMyObj × ObjFuncArgs)) (ps : List scalarList)
    (h : List.Forall₂ (fun pa p => pa.1.mesh_.thisDb.lookupObject "p" = .ok p
      ∧ p.length = pa.1.mesh_.V.length) procs ps) :
    ps = procs.map (fun pa => pa.1.pField) := by
  induction h with
  | nil => rfl
  | cons hd _ ih =>
    rw [List.map_cons, ← ih]
    congr 1
    simp [DAObjFuncMyObj.pField, hd.1]

theorem forall₂_wf (procs : List (DAObjFuncMyObj × ObjFuncArgs)) (ps : List scalarList)
    (h : List.Forall₂ (fun pa p => pa.1.mesh_.thisDb.lookupObject "p" = .ok p
      ∧ p.length = pa.1.mesh_.V.length) procs ps) :
    ∀ pa ∈ procs, ∃ p, pa.1.mesh_.thisDb.lookupObject "p" = .ok p
      ∧ p.length = pa.1.mesh_.V.length := by
  induction h with
  | nil => intro pa hpa; simp at hpa
  | cons hd _ ih =>
    intro pa hpa
    rcases List.mem_cons.mp hpa with rfl | hmem
    · exact ⟨_, hd⟩
    · exact ih pa hmem

theorem zipWith_pField (procs : List (DAObjFuncMyObj × ObjFuncArgs)) :
    List.zipWith (fun (pa : DAObjFuncMyObj × ObjFuncArgs) (p : scalarList) =>
        (List.zipWith (· * ·) p pa.1.mesh_.V).sum) procs (procs.map (fun pa => pa.1.pField))
      = procs.map (fun q => (List.zipWith (· * ·) q.1.pField q.1.mesh_.V).sum) := by
  induction procs with
  | nil => rfl
  | cons a l ih => simp [ih]

/-! ### The objective in double precision -/

theorem foldl_add_zero (n : Nat) :
    (List.replicate n Double.zero).foldl Double.add Double.zero = Double.zero := by
  induction n with
  | zero => rfl
  | succ n ih =>
    rw [List.replicate_succ, List.foldl_cons]
    exact ih

theorem calcObjFuncDouble_no_cells (mesh_ : fvMeshDouble) (n : Nat) (fs cs : labelList)
    (fv cv : List Double) (v0 : Double)
    (hp : fvMeshDouble.lookupObject mesh_.thisDb "p" = .ok []) :
    DAObjFuncMyObj.calcObjFuncDouble mesh_ (List.replicate n Double.zero) fs cs fv cv v0
      = .ok ⟨fv, cv, Double.zero⟩ := by
  unfold DAObjFuncMyObj.calcObjFuncDouble
  simp only [hp, bind, Except.bind, forAll, List.length_nil, List.range_zero, List.foldlM_nil,
    pure, Except.pure, foldl_add_zero]

theorem calcObjFuncDouble_frame (mesh_ : fvMeshDouble) (others : List Double)
    (fs cs : labelList) (fv cv : List Double) (v0 : Double) (r : ObjFuncOutDouble)
    (h : DAObjFuncMyObj.calcObjFuncDouble mesh_ others fs cs fv cv v0 = .ok r) :
    r.objFuncFaceValues = fv ∧ r.objFuncCellValues = cv := by
  unfold DAObjFuncMyObj.calcObjFuncDouble at h
  simp only [bind, Except.bind, pure, Except.pure] at h
  split at h
  · cases h
  · split at h
    · cases h
    · cases h
      exact ⟨rfl, rfl⟩

/-! ### DAObjFuncMyObj::calcObjFunc -/

/-- C1, as stated, fails: in double precision, with p = [1e16, 1, -1e16] and V = [1, 1, 1] on
one process, calcObjFunc returns objFuncValue = 0, while the sum of p[c]*V[c] is 1 (the
value the exact-arithmetic embedding returns): 1e16 + 1 rounds back to 1e16. -/
theorem DAObjFuncMyObj.calcObjFunc_double_not_sum :
    DAObjFuncMyObj.calcObjFuncDouble
        ⟨[Double.ofInt 1, Double.ofInt 1, Double.ofInt 1],
         [("p", [Double.ofInt 10000000000000000, Double.ofInt 1,
            Double.ofInt (-10000000000000000)])]⟩
        [] [] [] [] [] Double.zero = .ok ⟨[], [], Double.finite 0 0⟩
      ∧ Double.toRat (Double.finite 0 0) = some 0
      ∧ [Double.ofInt 10000000000000000, Double.ofInt 1,
            Double.ofInt (-10000000000000000)].map Double.toRat
          = [some 10000000000000000, some 1, some (-10000000000000000)]
      ∧ [Double.ofInt 1, Double.ofInt 1, Double.ofInt 1].map Double.toRat
          = [some 1, some 1, some 1]
      ∧ (DAObjFuncMyObj.ofFields [10000000000000000, 1, -10000000000000000]
            [1, 1, 1]).calcObjFunc [] [] [] [] [] 0 = .ok ⟨[], [], 1⟩
      ∧ (List.zipWith (· * ·) [10000000000000000, 1, -10000000000000000]
            ([1, 1, 1] : scalarList)).sum = 1
      ∧ (0 : ℚ) ≠ 1 := by
  have h1 : Double.ofInt 10000000000000000 = .finite 152587890625 16 := by decide
  have h2 : Double.ofInt (-10000000000000000) = .finite (-152587890625) 16 := by decide
  have h3 : Double.ofInt 1 = .finite 1 0 := by decide
  refine ⟨rfl, ?_, ?_, ?_, ?_, ?_, ?_⟩
  · norm_num [Double.toRat]
  · rw [h1, h2, h3]
    norm_num [Double.toRat]
  · rw [h3]
    norm_num [Double.toRat]
  · rw [calcObjFunc_eq (DAObjFuncMyObj.ofFields [10000000000000000, 1, -10000000000000000]
      [1, 1, 1]) [10000000000000000, 1, -10000000000000000] [] [] [] [] [] 0 rfl rfl]
    norm_num [DAObjFuncMyObj.ofFields]
  · norm_num
  · norm_num

/-- C1, amended: in exact arithmetic, when on every process the field p and the cell volumes
V have equal length, the collective call of calcObjFunc leaves in objFuncValue, on every
process, the sum over all processes of the local sums of p[c]*V[c]; on a single process that
is the sum over its cells, and when no process has a cell it is 0. In double precision the
no-cell case still gives 0. -/
theorem DAObjFuncMyObj.calcObjFunc_sum_over_processes
    (procs : List (DAObjFuncMyObj × ObjFuncArgs)) (ps : List scalarList)
    (h : List.Forall₂ (fun pa p => pa.1.mesh_.thisDb.lookupObject "p" = .ok p
      ∧ p.length = pa.1.mesh_.V.length) procs ps) :
    DAObjFuncMyObj.calcObjFuncAllProcs procs
        = .ok (procs.map (fun pa => ⟨pa.2.objFuncFaceValues, pa.2.objFuncCellValues,
            (List.zipWith (fun (pa : DAObjFuncMyObj × ObjFuncArgs) (p : scalarList) =>
              (List.zipWith (· * ·) p pa.1.mesh_.V).sum) procs ps).sum⟩))
      ∧ (∀ (self : DAObjFuncMyObj) (p : scalarList) (a : ObjFuncArgs),
          self.mesh_.thisDb.lookupObject "p" = .ok p → p.length = self.mesh_.V.length →
          self.calcObjFunc [] a.objFuncFaceSources a.objFuncCellSources a.objFuncFaceValues
              a.objFuncCellValues a.objFuncValue
            = .ok ⟨a.objFuncFaceValues, a.objFuncCellValues,
                (List.zipWith (· * ·) p self.mesh_.V).sum⟩)
      ∧ ((∀ p ∈ ps, p = []) →
          DAObjFuncMyObj.calcObjFuncAllProcs procs
            = .ok (procs.map (fun pa =>
                ⟨pa.2.objFuncFaceValues, pa.2.objFuncCellValues, 0⟩)))
      ∧ (∀ (mesh_ : fvMeshDouble) (n : Nat) (fs cs : labelList) (fv cv : List Double)
          (v0 : Double), fvMeshDouble.lookupObject mesh_.thisDb "p" = .ok [] →
          DAObjFuncMyObj.calcObjFuncDouble mesh_ (List.replicate n Double.zero) fs cs fv cv v0
            = .ok ⟨fv, cv, Double.zero⟩) := by
  have hps := forall₂_pField procs ps h
  have hmain := calcObjFuncAllProcs_eq procs (forall₂_wf procs ps h)
  have hz := zipWith_pField procs
  refine ⟨?_, ?_, ?_, fun mesh_ n fs cs fv cv v0 hp =>
    calcObjFuncDouble_no_cells mesh_ n fs cs fv cv v0 hp⟩
  · rw [hmain, hps, hz]
  · intro self p a hp hlen
    have := calcObjFunc_eq self p [] a.objFuncFaceSources a.objFuncCellSources
      a.objFuncFaceValues a.objFuncCellValues a.objFuncValue hp hlen
    simpa using this
  · intro hnil
    rw [hmain]
    have hzero : (procs.map (fun q => (List.zipWith (· * ·) q.1.pField q.1.mesh_.V).sum)).sum
        = 0 := by
      apply List.sum_eq_zero
      intro x hx
      obtain ⟨q, hq, rfl⟩ := List.mem_map.mp hx
      have hqp : q.1.pField ∈ ps := by
        rw [hps]; exact List.mem_map.mpr ⟨q, hq, rfl⟩
      rw [hnil _ hqp]
      simp
    rw [hzero]

/-- C1, amended, witness: in exact arithmetic two processes with p = [1, 2], V = [3, 4] and
p = [5], V = [6] both end with objFuncValue = 1*3 + 2*4 + 5*6 = 41. -/
theorem DAObjFuncMyObj.calcObjFunc_sum_over_processes_witness :
    DAObjFuncMyObj.calcObjFuncAllProcs
        [(DAObjFuncMyObj.ofFields [1, 2] [3, 4], ⟨[], [], [], [], 7⟩),
         (DAObjFuncMyObj.ofFields [5] [6], ⟨[], [], [], [], 9⟩)]
      = .ok [⟨[], [], 41⟩, ⟨[], [], 41⟩] := by
  have h := (DAObjFuncMyObj.calcObjFunc_sum_over_processes
    [(DAObjFuncMyObj.ofFields [1, 2] [3, 4], ⟨[], [], [], [], 7⟩),
     (DAObjFuncMyObj.ofFields [5] [6], ⟨[], [], [], [], 9⟩)]
    [[1, 2], [5]]
    (List.Forall₂.cons ⟨rfl, rfl⟩
      (List.Forall₂.cons ⟨rfl, rfl⟩ List.Forall₂.nil))).1
  rw [h]
  norm_num [DAObjFuncMyObj.ofFields]

/-- The reference parameters objFuncFaceValues and objFuncCellValues come back as passed. -/
theorem calcObjFunc_frame (self : DAObjFuncMyObj) (others : List scalar)
    (fs cs : labelList) (fv cv : scalarList) (v0 : scalar) (r : ObjFuncOut)
    (h : self.calcObjFunc others fs cs fv cv v0 = .ok r) :
    r.objFuncFaceValues = fv ∧ r.objFuncCellValues = cv := by
  unfold DAObjFuncMyObj.calcObjFunc at h
  simp only [bind, Except.bind, pure, Except.pure] at h
  split at h
  · cases h
  · split at h
    · cases h
    · cases h
      exact ⟨rfl, rfl⟩

/-- C4: calcObjFunc does not depend on the value objFuncValue held before the call, and a
second call made on the outputs of a first one returns what the first returned: the first
result is not accumulated into the second. With p and V of equal length both calls return,
with the same objFuncValue. -/
theorem DAObjFuncMyObj.calcObjFunc_twice (self : DAObjFuncMyObj) (others : List scalar)
    (fs cs : labelList) (fv cv : scalarList) (v0 v1 : scalar) :
    self.calcObjFunc others fs cs fv cv v0 = self.calcObjFunc others fs cs fv cv v1
      ∧ (self.calcObjFunc others fs cs fv cv v0 >>= fun r =>
          self.calcObjFunc others fs cs r.objFuncFaceValues r.objFuncCellValues r.objFuncValue)
        = self.calcObjFunc others fs cs fv cv v0
      ∧ (∀ p : scalarList, self.mesh_.thisDb.lookupObject "p" = .ok p →
          p.length = self.mesh_.V.length →
          ∃ r : ObjFuncOut, self.calcObjFunc others fs cs fv cv v0 = .ok r
            ∧ self.calcObjFunc others fs cs r.objFuncFaceValues r.objFuncCellValues
                r.objFuncValue = .ok r) := by
  refine ⟨rfl, ?_, ?_⟩
  · cases hr : self.calcObjFunc others fs cs fv cv v0 with
    | error e => rfl
    | ok r =>
      obtain ⟨h1, h2⟩ := calcObjFunc_frame self others fs cs fv cv v0 r hr
      show self.calcObjFunc others fs cs r.objFuncFaceValues r.objFuncCellValues r.objFuncValue
        = .ok r
      rw [h1, h2, ← hr]
      rfl
  · intro p hp hlen
    exact ⟨_, calcObjFunc_eq self p others fs cs fv cv v0 hp hlen,
      calcObjFunc_eq self p others fs cs fv cv _ hp hlen⟩

/-- C4, witness: with p = [1, 2] and V = [3, 4] a first call entered with objFuncValue = 100
returns 11, and a second call entered with 11 returns 11 again. -/
theorem DAObjFuncMyObj.calcObjFunc_twice_witness :
    (DAObjFuncMyObj.ofFields [1, 2] [3, 4]).calcObjFunc [] [] [] [] [] 100 = .ok ⟨[], [], 11⟩
      ∧ (DAObjFuncMyObj.ofFields [1, 2] [3, 4]).calcObjFunc [] [] [] [] [] 11
        = .ok ⟨[], [], 11⟩ := by
  obtain ⟨r, h1, h2⟩ := (DAObjFuncMyObj.calcObjFunc_twice (DAObjFuncMyObj.ofFields [1, 2] [3, 4])
    [] [] [] [] [] 100 11).2.2 [1, 2] rfl rfl
  have hr : r = ⟨[], [], 11⟩ := by
    have h3 := calcObjFunc_eq (DAObjFuncMyObj.ofFields [1, 2] [3, 4]) [1, 2] [] [] [] [] []
      100 rfl rfl
    rw [h1] at h3
    injection h3 with h3
    rw [h3]
    norm_num [DAObjFuncMyObj.ofFields]
  subst hr
  exact ⟨h1, h2⟩

/-- C8, as stated, fails: with p = [2], V = [3], cell 0 selected and objFuncCellValues = [0]
on entry, the call returns objFuncCellValues = [0], not the contribution [2*3], and
objFuncValue = 6, not the sum 0 of the entries of the two value lists. -/
theorem DAObjFuncMyObj.calcObjFunc_no_breakdown :
    (DAObjFuncMyObj.ofFields [2] [3]).calcObjFunc [] [] [0] [] [0] 0 = .ok ⟨[], [0], 6⟩
      ∧ ([0] : scalarList) ≠ [2 * 3]
      ∧ (6 : scalar) ≠ ([0] : scalarList).sum + ([] : scalarList).sum := by
  refine ⟨?_, by norm_num, by norm_num⟩
  rw [calcObjFunc_eq (DAObjFuncMyObj.ofFields [2] [3]) [2] [] [] [0] [] [0] 0 rfl rfl]
  norm_num [DAObjFuncMyObj.ofFields]

/-- C8, amended: calcObjFunc returns the scalar only. Whenever it returns, objFuncFaceValues
and objFuncCellValues are exactly what the caller passed, in exact arithmetic and in double
precision alike; and in exact arithmetic, on one process with p and V of equal length, it
returns with objFuncValue the sum over all local cells of p[c]*V[c]. -/
theorem DAObjFuncMyObj.calcObjFunc_scalar_only (self : DAObjFuncMyObj) (fs cs : labelList)
    (fv cv : scalarList) (v0 : scalar) :
    (∀ (others : List scalar) (r : ObjFuncOut),
        self.calcObjFunc others fs cs fv cv v0 = .ok r →
        r.objFuncFaceValues = fv ∧ r.objFuncCellValues = cv)
      ∧ (∀ p : scalarList, self.mesh_.thisDb.lookupObject "p" = .ok p →
          p.length = self.mesh_.V.length →
          self.calcObjFunc [] fs cs fv cv v0
            = .ok ⟨fv, cv, (List.zipWith (· * ·) p self.mesh_.V).sum⟩)
      ∧ (∀ (mesh_ : fvMeshDouble) (others : List Double) (dv dc : List Double) (d0 : Double)
          (r : ObjFuncOutDouble),
          DAObjFuncMyObj.calcObjFuncDouble mesh_ others fs cs dv dc d0 = .ok r →
          r.objFuncFaceValues = dv ∧ r.objFuncCellValues = dc) := by
  refine ⟨fun others r h => calcObjFunc_frame self others fs cs fv cv v0 r h, ?_,
    fun mesh_ others dv dc d0 r h => calcObjFuncDouble_frame mesh_ others fs cs dv dc d0 r h⟩
  intro p hp hlen
  have := calcObjFunc_eq self p [] fs cs fv cv v0 hp hlen
  simpa using this

/-- C8, amended, witness: in exact arithmetic, p = [2, 1], V = [3, 4] with non-empty value
lists on entry. -/
theorem DAObjFuncMyObj.calcObjFunc_scalar_only_witness :
    (DAObjFuncMyObj.ofFields [2, 1] [3, 4]).calcObjFunc [] [0] [1] [5] [8, 9] 0
      = .ok ⟨[5], [8, 9], 10⟩ := by
  have h := (DAObjFuncMyObj.calcObjFunc_scalar_only (DAObjFuncMyObj.ofFields [2, 1] [3, 4])
    [0] [1] [5] [8, 9] 0).2.1 [2, 1] rfl rfl
  rw [h]
  norm_num [DAObjFuncMyObj.ofFields]


/-! ### DASolver::primalResidualControl -/

theorem primalResidualControl_primalMinRes {F : Type} (self : DASolver F)
    (solverP : SolverPerformance) (printToScreen printInterval : label) (varName : word) :
    (self.primalResidualControl solverP printToScreen printInterval varName).1.primalMinRes_
      = min self.primalMinRes_ |solverP.initialResidual| := by
  unfold DASolver.primalResidualControl mag
  by_cases h : |solverP.initialResidual| < self.primalMinRes_
  · simp only [h, if_true]
    exact (min_eq_right (le_of_lt h)).symm
  · simp only [h, if_false]
    exact (min_eq_left (not_lt.mp h)).symm

theorem primalResidualControlSeq_isLeast {F : Type} (calls : List DASolver.ResidualControlCall) :
    ∀ self : DASolver F,
      IsLeast (insert self.primalMinRes_
          {x | ∃ c ∈ calls, x = |c.solverP.initialResidual|})
        (self.primalResidualControlSeq calls).primalMinRes_ := by
  induction calls with
  | nil =>
    intro self
    refine ⟨Or.inl rfl, ?_⟩
    rintro x (rfl | ⟨c, hc, _⟩)
    · exact le_refl _
    · simp at hc
  | cons c cs ih =>
    intro self
    have hstep := primalResidualControl_primalMinRes self c.solverP c.printToScreen
      c.printInterval c.varName
    have h := ih (self.primalResidualControl c.solverP c.printToScreen c.printInterval
      c.varName).1
    rw [hstep] at h
    have hseq : self.primalResidualControlSeq (c :: cs)
        = (self.primalResidualControl c.solverP c.printToScreen c.printInterval
            c.varName).1.primalResidualControlSeq cs := rfl
    rw [hseq]
    obtain ⟨hmem, hlb⟩ := h
    refine ⟨?_, ?_⟩
    · rcases hmem with hm | ⟨d, hd, hx⟩
      · rcases min_choice self.primalMinRes_ |c.solverP.initialResidual| with h1 | h1
        · exact Or.inl (hm.trans h1)
        · exact Or.inr ⟨c, List.mem_cons_self c cs, hm.trans h1⟩
      · exact Or.inr ⟨d, List.mem_cons_of_mem c hd, hx⟩
    · rintro x (rfl | ⟨d, hd, rfl⟩)
      · exact (hlb (Or.inl rfl)).trans (min_le_left _ _)
      · rcases List.mem_cons.mp hd with rfl | hd
        · exact (hlb (Or.inl rfl)).trans (min_le_right _ _)
        · exact hlb (Or.inr ⟨d, hd, rfl⟩)

/-- C2: one call of primalResidualControl leaves primalMinRes_ equal to the minimum of its
previous value and the magnitude of the initial residual. -/
theorem DASolver.primalResidualControl_min {F : Type} (self : DASolver F)
    (solverP : SolverPerformance) (printToScreen printInterval : label) (varName : word) :
    (self.primalResidualControl solverP printToScreen printInterval varName).1.primalMinRes_
      = min self.primalMinRes_ |solverP.initialResidual| :=
  primalResidualControl_primalMinRes self solverP printToScreen printInterval varName

/-- C3, as stated, fails: on a solver whose primalMinRes_ has its initial value 1e10, one call
with initial residual 2e10 leaves primalMinRes_ = 1e10, which is not the smallest residual
magnitude observed (2e10). -/
theorem DASolver.primalResidualControlSeq_not_observed_min :
    (({ meshPtr_ := 0, daFieldPtr_ := DAField.none } : DASolver Nat).primalResidualControlSeq
        [⟨{ initialResidual := 20000000000, finalResidual := 1 }, 0, 1, "U"⟩]).primalMinRes_
        = 10000000000
      ∧ ¬ IsLeast {x : scalar | ∃ c ∈ ([⟨{ initialResidual := 20000000000, finalResidual := 1 },
              0, 1, "U"⟩] : List DASolver.ResidualControlCall),
            x = |c.solverP.initialResidual|}
          (({ meshPtr_ := 0, daFieldPtr_ := DAField.none } :
              DASolver Nat).primalResidualControlSeq
            [⟨{ initialResidual := 20000000000, finalResidual := 1 }, 0, 1,
              "U"⟩]).primalMinRes_ := by
  have hval : (({ meshPtr_ := 0, daFieldPtr_ := DAField.none } :
      DASolver Nat).primalResidualControlSeq
        [⟨{ initialResidual := 20000000000, finalResidual := 1 }, 0, 1, "U"⟩]).primalMinRes_
        = 10000000000 := by
    simp only [DASolver.primalResidualControlSeq, List.foldl_cons, List.foldl_nil]
    rw [primalResidualControl_primalMinRes]
    norm_num
  refine ⟨hval, ?_⟩
  rw [hval]
  rintro ⟨⟨c, hc, hx⟩, _⟩
  simp only [List.mem_singleton] at hc
  subst hc
  norm_num at hx

/-- C3, amended: on a solver whose primalMinRes_ has its initial value 1e10, after any
sequence of primalResidualControl calls primalMinRes_ is the least of 1e10 and the residual
magnitudes observed; it is the smallest magnitude observed as soon as one call had a
magnitude of at most 1e10. -/
theorem DASolver.primalResidualControlSeq_min {F : Type} (self : DASolver F)
    (calls : List DASolver.ResidualControlCall) (hfresh : self.primalMinRes_ = 10000000000) :
    IsLeast (insert (10000000000 : scalar)
          {x | ∃ c ∈ calls, x = |c.solverP.initialResidual|})
        (self.primalResidualControlSeq calls).primalMinRes_
      ∧ ((∃ c ∈ calls, |c.solverP.initialResidual| ≤ 10000000000) →
          IsLeast {x | ∃ c ∈ calls, x = |c.solverP.initialResidual|}
            (self.primalResidualControlSeq calls).primalMinRes_) := by
  have h := primalResidualControlSeq_isLeast calls self
  rw [hfresh] at h
  refine ⟨h, ?_⟩
  rintro ⟨c, hc, hle⟩
  obtain ⟨hmem, hlb⟩ := h
  refine ⟨?_, fun x hx => hlb (Or.inr hx)⟩
  rcases hmem with hm | hm
  · have h1 : (self.primalResidualControlSeq calls).primalMinRes_
        ≤ |c.solverP.initialResidual| := hlb (Or.inr ⟨c, hc, rfl⟩)
    have h2 : (self.primalResidualControlSeq calls).primalMinRes_
        = |c.solverP.initialResidual| := le_antisymm h1 (hm ▸ hle)
    exact ⟨c, hc, h2⟩
  · exact hm

/-- C3, amended, witness: residuals 3, -1/2 and 2 on a fresh solver leave 1/2. -/
theorem DASolver.primalResidualControlSeq_min_witness :
    IsLeast {x : scalar | ∃ c ∈ ([⟨{ initialResidual := 3, finalResidual := 1 }, 0, 1, "U"⟩,
            ⟨{ initialResidual := -1 / 2, finalResidual := 1 }, 1, 1, "p"⟩,
            ⟨{ initialResidual := 2, finalResidual := 1 }, 0, 1, "U"⟩] :
              List DASolver.ResidualControlCall),
          x = |c.solverP.initialResidual|}
      (({ meshPtr_ := 0, daFieldPtr_ := DAField.none } : DASolver Nat).primalResidualControlSeq
        [⟨{ initialResidual := 3, finalResidual := 1 }, 0, 1, "U"⟩,
         ⟨{ initialResidual := -1 / 2, finalResidual := 1 }, 1, 1, "p"⟩,
         ⟨{ initialResidual := 2, finalResidual := 1 }, 0, 1, "U"⟩]).primalMinRes_ :=
  (DASolver.primalResidualControlSeq_min
    ({ meshPtr_ := 0, daFieldPtr_ := DAField.none } : DASolver Nat)
    [⟨{ initialResidual := 3, finalResidual := 1 }, 0, 1, "U"⟩,
     ⟨{ initialResidual := -1 / 2, finalResidual := 1 }, 1, 1, "p"⟩,
     ⟨{ initialResidual := 2, finalResidual := 1 }, 0, 1, "U"⟩] rfl).2
    ⟨⟨{ initialResidual := 3, finalResidual := 1 }, 0, 1, "U"⟩, List.mem_cons_self _ _,
      by norm_num⟩

/-! ### Residual conversion -/

/-- C5: the code does not do what its documentation says. DASolver::ofResField2ResVec and the
DASolvers wrapper are the same operation as resVec2OFResField; on residual fields [1, 2] and
resVec = [0, 0] they leave resVec = [0, 0] and overwrite the residual fields with [0, 0],
where the field-to-vector conversion of DAField gives resVec = [1, 2]. -/
theorem DASolver.ofResField2ResVec_wrong_direction :
    (∀ (F : Type) (self : DASolver F) (resVec : Vec),
        self.ofResField2ResVec resVec = self.resVec2OFResField resVec)
      ∧ (∀ (F : Type) (self : DASolvers F) (resVec : Vec),
        self.ofResField2ResVec resVec = self.resVec2OFResField resVec)
      ∧ (DASolver.flatCase.ofResField2ResVec [0, 0]).1 = [0, 0]
      ∧ (DASolver.flatCase.ofResField2ResVec [0, 0]).2.meshPtr_.residual = [0, 0]
      ∧ ((⟨DASolverImpl.steady 0, DASolver.flatCase⟩ :
            DASolvers FlatFields).ofResField2ResVec [0, 0]).1 = [0, 0]
      ∧ ((⟨DASolverImpl.steady 0, DASolver.flatCase⟩ :
            DASolvers FlatFields).ofResField2ResVec [0, 0]).2.DASolverPtr_.meshPtr_.residual
          = [0, 0]
      ∧ DASolver.flatCase.daFieldPtr_.ofResField2ResVec DASolver.flatCase.meshPtr_ [0, 0]
          = [1, 2] :=
  ⟨fun _ _ _ => rfl, fun _ _ _ => rfl, rfl, rfl, rfl, rfl, rfl⟩

/-! ### Status codes -/

/-- C6: the code drops the status. Whatever status DASolver::solveLinearEqn answers (0 or
nonzero), DASolvers::solveLinearEqn returns the same unit value, so a solve that did not
converge is indistinguishable from one that did. -/
theorem DASolvers.solveLinearEqn_drops_status (code : label) (ksp : KSP) (rhsVec solVec : Vec) :
    ((DASolverImpl.steady code).solveLinearEqn ksp rhsVec solVec DASolver.flatCase).map
        (fun r => r.1) = .ok code
      ∧ ((⟨DASolverImpl.steady code, DASolver.flatCase⟩ :
            DASolvers FlatFields).solveLinearEqn ksp rhsVec solVec).map (fun r => r.1)
          = ((⟨DASolverImpl.steady 0, DASolver.flatCase⟩ :
            DASolvers FlatFields).solveLinearEqn ksp rhsVec solVec).map (fun r => r.1) :=
  ⟨rfl, rfl⟩

/-- C7: DASolvers::solvePrimal returns what the selected solver's solvePrimal returns on the
same arguments, status label included, and its effect on the solver is that of this one
call: on a solver that counts its calls and answers with any status code, the wrapper answers
that code and the count goes up by exactly one. -/
theorem DASolvers.solvePrimal_passes_status :
    (∀ (F : Type) (self : DASolvers F) (xvVec wVec : Vec),
        self.solvePrimal xvVec wVec
          = (self.selected.solvePrimal xvVec wVec self.DASolverPtr_).map
              (fun r => (r.1, r.2.1, { self with DASolverPtr_ := r.2.2 })))
      ∧ (∀ (code : label) (n : Nat) (xvVec wVec : Vec),
          ((⟨DASolverImpl.counting code, { meshPtr_ := n, daFieldPtr_ := DAField.none }⟩ :
              DASolvers Nat).solvePrimal xvVec wVec).map
              (fun r => (r.1, r.2.1, r.2.2.DASolverPtr_.meshPtr_))
            = .ok (code, wVec, n + 1)) := by
  refine ⟨?_, fun _ _ _ _ => rfl⟩
  intro F self xvVec wVec
  unfold DASolvers.solvePrimal
  cases self.selected.solvePrimal xvVec wVec self.DASolverPtr_ with
  | error e => rfl
  | ok r => rfl

/-! ### State round trip -/

/-- C9: DASolver and DASolvers forward ofField2StateVec and stateVec2OFField to the DAField
conversion of the same name, so when the DAField pair reproduces W (written into the vector
out) from the current fields, stateVec2OFField(W) followed by ofField2StateVec(out) yields
W at the DASolver level and at the DASolvers level. -/
theorem DASolvers.state_roundtrip {F : Type} (self : DASolvers F) (W out : Vec)
    (h : self.DASolverPtr_.daFieldPtr_.ofField2StateVec
        (self.DASolverPtr_.daFieldPtr_.stateVec2OFField W self.DASolverPtr_.meshPtr_) out = W) :
    ((self.DASolverPtr_.stateVec2OFField W).2.ofField2StateVec out).1 = W
      ∧ ((self.stateVec2OFField W).2.ofField2StateVec out).1 = W
      ∧ (self.DASolverPtr_.ofField2StateVec out).1
          = self.DASolverPtr_.daFieldPtr_.ofField2StateVec self.DASolverPtr_.meshPtr_ out
      ∧ (self.DASolverPtr_.stateVec2OFField W).2.meshPtr_
          = self.DASolverPtr_.daFieldPtr_.stateVec2OFField W self.DASolverPtr_.meshPtr_
      ∧ (self.ofField2StateVec out).1 = (self.DASolverPtr_.ofField2StateVec out).1
      ∧ (self.stateVec2OFField W).2.DASolverPtr_ = (self.DASolverPtr_.stateVec2OFField W).2 :=
  ⟨h, h, rfl, rfl, rfl, rfl⟩

/-- C9, witness: on the flat case the state [4, 5, 6] comes back through both levels. -/
theorem DASolvers.state_roundtrip_witness :
    (((⟨DASolverImpl.steady 0, DASolver.flatCase⟩ :
          DASolvers FlatFields).stateVec2OFField [4, 5, 6]).2.ofField2StateVec [0, 0, 0]).1
        = [4, 5, 6]
      ∧ ((DASolver.flatCase.stateVec2OFField [4, 5, 6]).2.ofField2StateVec [0, 0, 0]).1
        = [4, 5, 6] :=
  have h := DASolvers.state_roundtrip
    (⟨DASolverImpl.steady 0, DASolver.flatCase⟩ : DASolvers FlatFields) [4, 5, 6] [0, 0, 0] rfl
  ⟨h.2.1, h.1⟩

/-! ### Time instances -/

/-- C10: for an instance index outside [0, nTimeInstances), DASolvers::getTimeInstanceObjFunc
and DASolvers::setTimeInstanceField end with a usage error; neither returns a value, so the
wrapper's initial 0.0 is never returned and no other slot is read instead. -/
theorem DASolvers.timeInstance_out_of_range {F : Type}
    (assignValueCheckAD : double → scalar → double) (self : DASolvers F) (instanceI : label)
    (objFuncName : word)
    (h : instanceI < 0 ∨ self.DASolverPtr_.nTimeInstances_ ≤ instanceI) :
    DASolvers.getTimeInstanceObjFunc assignValueCheckAD self instanceI objFuncName
        = .error .usageError
      ∧ self.setTimeInstanceField instanceI = .error .usageError
      ∧ (∀ v : double,
          DASolvers.getTimeInstanceObjFunc assignValueCheckAD self instanceI objFuncName
            ≠ .ok v)
      ∧ (∀ s : DASolvers F, self.setTimeInstanceField instanceI ≠ .ok s) := by
  have hc : ¬ (0 ≤ instanceI ∧ instanceI < self.DASolverPtr_.nTimeInstances_) := by
    rintro ⟨h0, h1⟩
    rcases h with h | h
    · exact absurd h0 (not_le.mpr h)
    · exact absurd h1 (not_lt.mpr h)
  have hget : DASolvers.getTimeInstanceObjFunc assignValueCheckAD self instanceI objFuncName
      = .error .usageError := by
    simp only [DASolvers.getTimeInstanceObjFunc, DASolver.getTimeInstanceObjFunc, hc, if_false]
    rfl
  have hset : self.setTimeInstanceField instanceI = .error .usageError := by
    simp only [DASolvers.setTimeInstanceField, DASolver.setTimeInstanceField, hc, if_false]
    rfl
  refine ⟨hget, hset, ?_, ?_⟩
  · intro v hv
    rw [hget] at hv
    cases hv
  · intro s hs
    rw [hset] at hs
    cases hs

/-- C10, witness: with two instances configured, index 2 and index -1 end with a usage error,
while index 1 returns the stored value 6. -/
theorem DASolvers.timeInstance_out_of_range_witness :
    DASolvers.getTimeInstanceObjFunc assignValue
        (⟨DASolverImpl.steady 0, DASolver.twoInstances⟩ : DASolvers FlatFields) 2 "CD"
        = .error .usageError
      ∧ (⟨DASolverImpl.steady 0, DASolver.twoInstances⟩ :
          DASolvers FlatFields).setTimeInstanceField (-1) = .error .usageError
      ∧ DASolvers.getTimeInstanceObjFunc assignValue
        (⟨DASolverImpl.steady 0, DASolver.twoInstances⟩ : DASolvers FlatFields) 1 "CD"
        = .ok 6 :=
  ⟨(DASolvers.timeInstance_out_of_range assignValue
      (⟨DASolverImpl.steady 0, DASolver.twoInstances⟩ : DASolvers FlatFields) 2 "CD"
      (Or.inr (by decide))).1,
   (DASolvers.timeInstance_out_of_range assignValue
      (⟨DASolverImpl.steady 0, DASolver.twoInstances⟩ : DASolvers FlatFields) (-1) "CD"
      (Or.inl (by decide))).2.1,
   rfl⟩

/-! ### Forward-mode derivative table -/

theorem getForwardADDerivVal_frame {F : Type} (self : DASolver F) (objFuncName : word) :
    (self.getForwardADDerivVal objFuncName).2 = self := by
  unfold DASolver.getForwardADDerivVal HashTable.subscript
  cases HashTable.find self.forwardADDerivVal_ objFuncName <;> rfl

/-- C11: getForwardADDerivVal(objFuncName) returns the value stored in forwardADDerivVal_
under the name when it is present and fails when the name is not registered, at the
DASolver level and through the DASolvers wrapper; in both cases the solver, forwardADDerivVal_
included, is left as it was. -/
theorem DASolver.getForwardADDerivVal_lookup {F : Type} (self : DASolvers F)
    (objFuncName : word) :
    (∀ v : PetscScalar, HashTable.find self.DASolverPtr_.forwardADDerivVal_ objFuncName = some v →
        (self.DASolverPtr_.getForwardADDerivVal objFuncName).1 = .ok v
          ∧ (self.getForwardADDerivVal objFuncName).1 = .ok v)
      ∧ (HashTable.find self.DASolverPtr_.forwardADDerivVal_ objFuncName = none →
        (self.DASolverPtr_.getForwardADDerivVal objFuncName).1 = .error (.notFound objFuncName)
          ∧ (self.getForwardADDerivVal objFuncName).1 = .error (.notFound objFuncName))
      ∧ (self.DASolverPtr_.getForwardADDerivVal objFuncName).2.forwardADDerivVal_
          = self.DASolverPtr_.forwardADDerivVal_
      ∧ (self.getForwardADDerivVal objFuncName).2.DASolverPtr_.forwardADDerivVal_
          = self.DASolverPtr_.forwardADDerivVal_ := by
  have hframe := getForwardADDerivVal_frame self.DASolverPtr_ objFuncName
  refine ⟨?_, ?_, ?_, ?_⟩
  · intro v hv
    simp [DASolvers.getForwardADDerivVal, DASolver.getForwardADDerivVal,
      HashTable.subscript, hv]
  · intro hv
    simp [DASolvers.getForwardADDerivVal, DASolver.getForwardADDerivVal,
      HashTable.subscript, hv]
  · rw [hframe]
  · show (self.DASolverPtr_.getForwardADDerivVal objFuncName).2.forwardADDerivVal_ = _
    rw [hframe]

/-- C11, witness: with CD and CL stored, the name CL yields 1/2 and the unregistered name CM
fails, at both levels. -/
theorem DASolver.getForwardADDerivVal_lookup_witness :
    ((DASolver.forwardCase.getForwardADDerivVal "CL").1 = .ok (1 / 2)
        ∧ ((⟨DASolverImpl.steady 0, DASolver.forwardCase⟩ :
            DASolvers FlatFields).getForwardADDerivVal "CL").1 = .ok (1 / 2))
      ∧ ((DASolver.forwardCase.getForwardADDerivVal "CM").1 = .error (.notFound "CM")
        ∧ ((⟨DASolverImpl.steady 0, DASolver.forwardCase⟩ :
            DASolvers FlatFields).getForwardADDerivVal "CM").1 = .error (.notFound "CM")) :=
  ⟨(DASolver.getForwardADDerivVal_lookup
      (⟨DASolverImpl.steady 0, DASolver.forwardCase⟩ : DASolvers FlatFields) "CL").1
      (1 / 2) rfl,
   (DASolver.getForwardADDerivVal_lookup
      (⟨DASolverImpl.steady 0, DASolver.forwardCase⟩ : DASolvers FlatFields) "CM").2.1 rfl⟩

/-! ### Bounds and frame of primalResidualControl -/

/-- C13: a call of primalResidualControl never raises primalMinRes_, and starting from the
initial value 1e10 every sequence of calls leaves 0 <= primalMinRes_ <= 1e10. -/
theorem DASolver.primalMinRes_never_increases {F : Type} (self : DASolver F) :
    (∀ (solverP : SolverPerformance) (printToScreen printInterval : label) (varName : word),
        (self.primalResidualControl solverP printToScreen printInterval varName).1.primalMinRes_
          ≤ self.primalMinRes_)
      ∧ (∀ calls : List DASolver.ResidualControlCall, self.primalMinRes_ = 10000000000 →
          0 ≤ (self.primalResidualControlSeq calls).primalMinRes_
            ∧ (self.primalResidualControlSeq calls).primalMinRes_ ≤ 10000000000) := by
  refine ⟨?_, ?_⟩
  · intro solverP printToScreen printInterval varName
    rw [primalResidualControl_primalMinRes]
    exact min_le_left _ _
  · intro calls hfresh
    obtain ⟨hmem, hlb⟩ := primalResidualControlSeq_isLeast calls self
    rw [hfresh] at hmem hlb
    refine ⟨?_, hlb (Or.inl rfl)⟩
    rcases hmem with hm | ⟨c, _, hc⟩
    · rw [hm]; norm_num
    · rw [hc]; exact abs_nonneg _

/-- C13, witness: from 1e10, residuals -3 and 2e10 leave primalMinRes_ within [0, 1e10]. -/
theorem DASolver.primalMinRes_never_increases_witness :
    0 ≤ (({ meshPtr_ := 0, daFieldPtr_ := DAField.none } : DASolver Nat).primalResidualControlSeq
          [⟨{ initialResidual := -3, finalResidual := 1 }, 0, 1, "U"⟩,
           ⟨{ initialResidual := 20000000000, finalResidual := 1 }, 1, 1, "p"⟩]).primalMinRes_
      ∧ (({ meshPtr_ := 0, daFieldPtr_ := DAField.none } : DASolver Nat).primalResidualControlSeq
          [⟨{ initialResidual := -3, finalResidual := 1 }, 0, 1, "U"⟩,
           ⟨{ initialResidual := 20000000000, finalResidual := 1 }, 1, 1, "p"⟩]).primalMinRes_
        ≤ 10000000000 :=
  (DASolver.primalMinRes_never_increases
    ({ meshPtr_ := 0, daFieldPtr_ := DAField.none } : DASolver Nat)).2
    [⟨{ initialResidual := -3, finalResidual := 1 }, 0, 1, "U"⟩,
     ⟨{ initialResidual := 20000000000, finalResidual := 1 }, 1, 1, "p"⟩] rfl

/-- C14: the primalMinRes_ left by primalResidualControl is determined by the previous
primalMinRes_ and the initial residual alone, whatever the other members of the solver, the
final residual, printToScreen, printInterval and varName are; and the solver afterwards
differs from the solver before in primalMinRes_ at most. -/
theorem DASolver.primalResidualControl_frame {F : Type} (self other : DASolver F)
    (solverP solverQ : SolverPerformance) (printToScreen printToScreenQ : label)
    (printInterval printIntervalQ : label) (varName varNameQ : word)
    (hm : self.primalMinRes_ = other.primalMinRes_)
    (hr : solverP.initialResidual = solverQ.initialResidual) :
    (self.primalResidualControl solverP printToScreen printInterval varName).1.primalMinRes_
        = (other.primalResidualControl solverQ printToScreenQ printIntervalQ
            varNameQ).1.primalMinRes_
      ∧ (self.primalResidualControl solverP printToScreen printInterval varName).1
        = { self with primalMinRes_ :=
            (self.primalResidualControl solverP printToScreen printInterval
              varName).1.primalMinRes_ } := by
  refine ⟨?_, ?_⟩
  · rw [primalResidualControl_primalMinRes, primalResidualControl_primalMinRes, hm, hr]
  · unfold DASolver.primalResidualControl
    by_cases h : mag solverP.initialResidual < self.primalMinRes_
    · simp only [h, if_true]
    · simp only [h, if_false]

/-- C14, witness: two different solvers with primalMinRes_ = 1e10 and two calls that agree on
the initial residual 1/4 only both end with primalMinRes_ = 1/4. -/
theorem DASolver.primalResidualControl_frame_witness :
    (DASolver.flatCase.primalResidualControl
        { initialResidual := 1 / 4, finalResidual := 1 } 0 1 "U").1.primalMinRes_
      = (DASolver.twoInstances.primalResidualControl
        { initialResidual := 1 / 4, finalResidual := 1 / 100, nIterations := 7 } 1 5
          "p").1.primalMinRes_ :=
  (DASolver.primalResidualControl_frame DASolver.flatCase DASolver.twoInstances
    { initialResidual := 1 / 4, finalResidual := 1 }
    { initialResidual := 1 / 4, finalResidual := 1 / 100, nIterations := 7 }
    0 1 1 5 "U" "p" rfl rfl).1

/-! ### Sources are not consulted -/

/-- C17: calcObjFunc gives the same result for every choice of objFuncFaceSources and
objFuncCellSources, empty lists included, and with p and V of equal length that result is
the sum over every local cell (plus what the other processes contribute). -/
theorem DAObjFuncMyObj.calcObjFunc_ignores_sources (self : DAObjFuncMyObj)
    (others : List scalar) (fs cs fs1 cs1 : labelList) (fv cv : scalarList) (v0 : scalar) :
    self.calcObjFunc others fs cs fv cv v0 = self.calcObjFunc others fs1 cs1 fv cv v0
      ∧ self.calcObjFunc others fs cs fv cv v0 = self.calcObjFunc others [] [] fv cv v0
      ∧ (∀ p : scalarList, self.mesh_.thisDb.lookupObject "p" = .ok p →
          p.length = self.mesh_.V.length →
          self.calcObjFunc others fs cs fv cv v0
            = .ok ⟨fv, cv, (List.zipWith (· * ·) p self.mesh_.V).sum + others.sum⟩) :=
  ⟨rfl, rfl, fun p hp hlen => calcObjFunc_eq self p others fs cs fv cv v0 hp hlen⟩

/-- C17, witness: with p = [1, 2] and V = [3, 4], asking for cell 0 only still sums both
cells: 1*3 + 2*4 = 11. -/
theorem DAObjFuncMyObj.calcObjFunc_ignores_sources_witness :
    (DAObjFuncMyObj.ofFields [1, 2] [3, 4]).calcObjFunc [] [] [0] [] [] 0
      = .ok ⟨[], [], 11⟩ := by
  have h := (DAObjFuncMyObj.calcObjFunc_ignores_sources (DAObjFuncMyObj.ofFields [1, 2] [3, 4])
    [] [] [0] [] [] [] [] 0).2.2 [1, 2] rfl rfl
  rw [h]
  norm_num [DAObjFuncMyObj.ofFields]


theorem withField_lookup (self : DAObjFuncMyObj) (field : volScalarField) :
    (self.withField field).mesh_.thisDb.lookupObject "p" = .ok field := by
  simp [DAObjFuncMyObj.withField, objectRegistry.lookupObject]

theorem withField_pField (self : DAObjFuncMyObj) (field : volScalarField) :
    (self.withField field).pField = field := by
  simp [DAObjFuncMyObj.pField, withField_lookup]

theorem zipWith_mul_eq_map_zip (p V : scalarList) :
    (List.zipWith (· * ·) p V).sum = ((p.zip V).map (fun c => c.1 * c.2)).sum := by
  induction p generalizing V with
  | nil => simp
  | cons a p ih =>
    cases V with
    | nil => simp
    | cons b V => simp [ih]

theorem sum_cells (procs : List (DAObjFuncMyObj × ObjFuncArgs)) :
    (procs.map (fun q => (List.zipWith (· * ·) q.1.pField q.1.mesh_.V).sum)).sum
      = ((procs.flatMap (fun pa => pa.1.cells)).map (fun c => c.1 * c.2)).sum := by
  induction procs with
  | nil => simp
  | cons a l ih =>
    rw [List.map_cons, List.sum_cons, ih, List.flatMap_cons, List.map_append,
      List.sum_append, zipWith_mul_eq_map_zip]
    rfl

theorem zipWith_linComb (a b : scalar) (p q V : scalarList) (h : p.length = q.length) :
    (List.zipWith (· * ·) (linComb a b p q) V).sum
      = a * (List.zipWith (· * ·) p V).sum + b * (List.zipWith (· * ·) q V).sum := by
  unfold linComb
  induction p generalizing q V with
  | nil =>
    cases q with
    | nil => simp
    | cons y q => simp at h
  | cons x p ih =>
    cases q with
    | nil => simp at h
    | cons y q =>
      cases V with
      | nil => simp
      | cons v V =>
        have hlen : p.length = q.length := by simpa using h
        simp only [List.zipWith_cons_cons, List.sum_cons, ih q V hlen]
        ring

theorem zipWith_replicate_zero (n : Nat) (V : scalarList) :
    (List.zipWith (· * ·) (List.replicate n (0 : scalar)) V).sum = 0 := by
  induction n generalizing V with
  | zero => simp
  | succ n ih =>
    cases V with
    | nil => simp
    | cons v V => simp [List.replicate_succ, ih]

theorem zipWith_set (p V : scalarList) (i : Nat) (x : scalar) (h : p.length = V.length) :
    (List.zipWith (· * ·) (p.set i x) V).sum
      = (List.zipWith (· * ·) p V).sum + (x - p.getD i 0) * V.getD i 0 := by
  induction p generalizing V i with
  | nil =>
    cases V with
    | nil => simp
    | cons v V => simp at h
  | cons a p ih =>
    cases V with
    | nil => simp at h
    | cons v V =>
      have hlen : p.length = V.length := by simpa using h
      cases i with
      | zero => simp; ring
      | succ i =>
        simp only [List.set_cons_succ, List.zipWith_cons_cons, List.sum_cons,
          List.getD_cons_succ, ih V i hlen]
        ring

/-! ### Distribution of the cells, linearity and derivative -/

/-- C12: in exact arithmetic the value calcObjFunc leaves after the reduction is the same on
every process, and two runs whose cells, gathered over all processes, are a permutation of
each other (any partition among processes, any order within a process) leave the same
value: the sum of p[c]*V[c] over that collection of cells. -/
theorem DAObjFuncMyObj.calcObjFunc_partition_invariant
    (procs1 procs2 : List (DAObjFuncMyObj × ObjFuncArgs))
    (h1 : ∀ pa ∈ procs1, ∃ p, pa.1.mesh_.thisDb.lookupObject "p" = .ok p
      ∧ p.length = pa.1.mesh_.V.length)
    (h2 : ∀ pa ∈ procs2, ∃ p, pa.1.mesh_.thisDb.lookupObject "p" = .ok p
      ∧ p.length = pa.1.mesh_.V.length)
    (hperm : (procs1.flatMap (fun pa => pa.1.cells)).Perm
      (procs2.flatMap (fun pa => pa.1.cells))) :
    ∃ total : scalar,
      total = ((procs1.flatMap (fun pa => pa.1.cells)).map (fun c => c.1 * c.2)).sum
        ∧ DAObjFuncMyObj.calcObjFuncAllProcs procs1
          = .ok (procs1.map (fun pa =>
              ⟨pa.2.objFuncFaceValues, pa.2.objFuncCellValues, total⟩))
        ∧ DAObjFuncMyObj.calcObjFuncAllProcs procs2
          = .ok (procs2.map (fun pa =>
              ⟨pa.2.objFuncFaceValues, pa.2.objFuncCellValues, total⟩)) := by
  refine ⟨_, rfl, ?_, ?_⟩
  · rw [calcObjFuncAllProcs_eq procs1 h1, sum_cells]
  · rw [calcObjFuncAllProcs_eq procs2 h2, sum_cells,
      (hperm.map (fun c => c.1 * c.2)).sum_eq]

/-- C12, witness: the cells (1,3), (2,4), (5,6) split over two processes, and the same cells
in reverse order on one process, give 41 on every process. -/
theorem DAObjFuncMyObj.calcObjFunc_partition_invariant_witness :
    DAObjFuncMyObj.calcObjFuncAllProcs
        [(DAObjFuncMyObj.ofFields [1, 2] [3, 4], ⟨[], [], [], [], 7⟩),
         (DAObjFuncMyObj.ofFields [5] [6], ⟨[], [], [], [], 9⟩)]
        = .ok [⟨[], [], 41⟩, ⟨[], [], 41⟩]
      ∧ DAObjFuncMyObj.calcObjFuncAllProcs
        [(DAObjFuncMyObj.ofFields [5, 2, 1] [6, 4, 3], ⟨[], [], [], [], 0⟩)]
        = .ok [⟨[], [], 41⟩] := by
  obtain ⟨total, ht, r1, r2⟩ := DAObjFuncMyObj.calcObjFunc_partition_invariant
    [(DAObjFuncMyObj.ofFields [1, 2] [3, 4], ⟨[], [], [], [], 7⟩),
     (DAObjFuncMyObj.ofFields [5] [6], ⟨[], [], [], [], 9⟩)]
    [(DAObjFuncMyObj.ofFields [5, 2, 1] [6, 4, 3], ⟨[], [], [], [], 0⟩)]
    (by
      intro pa hpa
      simp only [List.mem_cons, List.mem_singleton, List.not_mem_nil, or_false] at hpa
      rcases hpa with rfl | rfl
      · exact ⟨[1, 2], rfl, rfl⟩
      · exact ⟨[5], rfl, rfl⟩)
    (by
      intro pa hpa
      simp only [List.mem_singleton] at hpa
      subst hpa
      exact ⟨[5, 2, 1], rfl, rfl⟩)
    (List.reverse_perm [((5 : scalar), (6 : scalar)), (2, 4), (1, 3)])
  have h41 : total = 41 := by
    rw [ht]
    have hc : ([(DAObjFuncMyObj.ofFields [1, 2] [3, 4], (⟨[], [], [], [], 7⟩ : ObjFuncArgs)),
        (DAObjFuncMyObj.ofFields [5] [6], ⟨[], [], [], [], 9⟩)].flatMap
          (fun pa => pa.1.cells)) = [(1, 3), (2, 4), (5, 6)] := rfl
    rw [hc]
    norm_num
  subst h41
  exact ⟨r1, r2⟩

theorem calcObjFunc_withField (self : DAObjFuncMyObj) (field : volScalarField)
    (others : List scalar) (fs cs : labelList) (fv cv : scalarList) (v0 : scalar)
    (hlen : field.length = self.mesh_.V.length) :
    (self.withField field).calcObjFunc others fs cs fv cv v0
      = .ok ⟨fv, cv, (List.zipWith (· * ·) field self.mesh_.V).sum + others.sum⟩ :=
  calcObjFunc_eq (self.withField field) field others fs cs fv cv v0
    (withField_lookup self field) hlen

theorem calcObjFuncAllProcs_withField
    (l : List (DAObjFuncMyObj × ObjFuncArgs × scalarList × scalarList))
    (f : scalarList → scalarList → scalarList)
    (h : ∀ t ∈ l, (f t.2.2.1 t.2.2.2).length = t.1.mesh_.V.length) :
    DAObjFuncMyObj.calcObjFuncAllProcs
        (l.map (fun t => (t.1.withField (f t.2.2.1 t.2.2.2), t.2.1)))
      = .ok (l.map (fun t => ⟨t.2.1.objFuncFaceValues, t.2.1.objFuncCellValues,
          (l.map (fun u =>
            (List.zipWith (· * ·) (f u.2.2.1 u.2.2.2) u.1.mesh_.V).sum)).sum⟩)) := by
  rw [calcObjFuncAllProcs_eq]
  · simp only [List.map_map]
    congr 1
  · intro pa hpa
    obtain ⟨t, ht, rfl⟩ := List.mem_map.mp hpa
    exact ⟨_, withField_lookup _ _, h t ht⟩

/-- C15: for a fixed mesh the objective is linear in the pressure field, in exact arithmetic.
On one process, and over all processes of a run, the value for the field a*p + b*q is a
times the value for p plus b times the value for q, p and q having one entry per cell; and
the value for the zero field is 0. -/
theorem DAObjFuncMyObj.calcObjFunc_linear (a b : scalar) :
    (∀ (self : DAObjFuncMyObj) (p q : volScalarField) (fs cs : labelList)
        (fv cv : scalarList) (v0 : scalar),
        p.length = self.mesh_.V.length → q.length = self.mesh_.V.length →
        ∃ Fp Fq : scalar,
          (self.withField p).calcObjFunc [] fs cs fv cv v0 = .ok ⟨fv, cv, Fp⟩
            ∧ (self.withField q).calcObjFunc [] fs cs fv cv v0 = .ok ⟨fv, cv, Fq⟩
            ∧ (self.withField (linComb a b p q)).calcObjFunc [] fs cs fv cv v0
              = .ok ⟨fv, cv, a * Fp + b * Fq⟩)
      ∧ (∀ (self : DAObjFuncMyObj) (fs cs : labelList) (fv cv : scalarList) (v0 : scalar),
          (self.withField (List.replicate self.mesh_.V.length 0)).calcObjFunc [] fs cs fv cv v0
            = .ok ⟨fv, cv, 0⟩)
      ∧ (∀ l : List (DAObjFuncMyObj × ObjFuncArgs × scalarList × scalarList),
          (∀ t ∈ l, t.2.2.1.length = t.1.mesh_.V.length
            ∧ t.2.2.2.length = t.1.mesh_.V.length) →
          ∃ Fp Fq : scalar,
            DAObjFuncMyObj.calcObjFuncAllProcs
                (l.map (fun t => (t.1.withField t.2.2.1, t.2.1)))
              = .ok (l.map (fun t =>
                  ⟨t.2.1.objFuncFaceValues, t.2.1.objFuncCellValues, Fp⟩))
            ∧ DAObjFuncMyObj.calcObjFuncAllProcs
                (l.map (fun t => (t.1.withField t.2.2.2, t.2.1)))
              = .ok (l.map (fun t =>
                  ⟨t.2.1.objFuncFaceValues, t.2.1.objFuncCellValues, Fq⟩))
            ∧ DAObjFuncMyObj.calcObjFuncAllProcs
                (l.map (fun t => (t.1.withField (linComb a b t.2.2.1 t.2.2.2), t.2.1)))
              = .ok (l.map (fun t =>
                  ⟨t.2.1.objFuncFaceValues, t.2.1.objFuncCellValues, a * Fp + b * Fq⟩))) := by
  refine ⟨?_, ?_, ?_⟩
  · intro self p q fs cs fv cv v0 hp hq
    have hl : (linComb a b p q).length = self.mesh_.V.length := by
      simp [linComb, hp, hq]
    refine ⟨(List.zipWith (· * ·) p self.mesh_.V).sum,
      (List.zipWith (· * ·) q self.mesh_.V).sum, ?_, ?_, ?_⟩
    · simpa using calcObjFunc_withField self p [] fs cs fv cv v0 hp
    · simpa using calcObjFunc_withField self q [] fs cs fv cv v0 hq
    · rw [calcObjFunc_withField self _ [] fs cs fv cv v0 hl,
        zipWith_linComb a b p q self.mesh_.V (hp.trans hq.symm)]
      simp
  · intro self fs cs fv cv v0
    rw [calcObjFunc_withField self _ [] fs cs fv cv v0 (by simp), zipWith_replicate_zero]
    simp
  · intro l hl
    refine ⟨(l.map (fun u => (List.zipWith (· * ·) u.2.2.1 u.1.mesh_.V).sum)).sum,
      (l.map (fun u => (List.zipWith (· * ·) u.2.2.2 u.1.mesh_.V).sum)).sum, ?_, ?_, ?_⟩
    · exact calcObjFuncAllProcs_withField l (fun p _ => p) (fun t ht => (hl t ht).1)
    · exact calcObjFuncAllProcs_withField l (fun _ q => q) (fun t ht => (hl t ht).2)
    · rw [calcObjFuncAllProcs_withField l (linComb a b) (fun t ht => by
        simp [linComb, (hl t ht).1, (hl t ht).2])]
      have hsum : (l.map (fun u =>
            (List.zipWith (· * ·) (linComb a b u.2.2.1 u.2.2.2) u.1.mesh_.V).sum)).sum
          = a * (l.map (fun u => (List.zipWith (· * ·) u.2.2.1 u.1.mesh_.V).sum)).sum
            + b * (l.map (fun u => (List.zipWith (· * ·) u.2.2.2 u.1.mesh_.V).sum)).sum := by
        rw [← List.sum_map_mul_left, ← List.sum_map_mul_left, ← List.sum_map_add]
        congr 1
        apply List.map_congr_left
        intro t ht
        exact zipWith_linComb a b _ _ _ ((hl t ht).1.trans (hl t ht).2.symm)
      rw [hsum]

/-- C15, witness: on V = [3, 4], p = [1, 2] gives 11, q = [5, 0] gives 15, and
2*p + 3*q = [17, 4] gives 2*11 + 3*15 = 67. -/
theorem DAObjFuncMyObj.calcObjFunc_linear_witness :
    ((DAObjFuncMyObj.ofFields [] [3, 4]).withField [17, 4]).calcObjFunc [] [] [] [] [] 0
      = .ok ⟨[], [], 67⟩ := by
  obtain ⟨Fp, Fq, hp, hq, hlin⟩ := (DAObjFuncMyObj.calcObjFunc_linear 2 3).1
    (DAObjFuncMyObj.ofFields [] [3, 4]) [1, 2] [5, 0] [] [] [] [] 0 rfl rfl
  have h1 := calcObjFunc_withField (DAObjFuncMyObj.ofFields [] [3, 4]) [1, 2] [] [] [] [] [] 0
    rfl
  have h2 := calcObjFunc_withField (DAObjFuncMyObj.ofFields [] [3, 4]) [5, 0] [] [] [] [] [] 0
    rfl
  rw [hp] at h1
  rw [hq] at h2
  injection h1 with h1
  injection h2 with h2
  injection h1 with _ _ h1
  injection h2 with _ _ h2
  have hf : linComb 2 3 [1, 2] [5, 0] = [17, 4] := by norm_num [linComb]
  rw [hf] at hlin
  rw [hlin, h1, h2]
  norm_num [DAObjFuncMyObj.ofFields]

/-- C16: the objective changes by exactly h*V[i] when the pressure of cell i is raised by h,
whatever the field and whatever the other processes contribute, so for h != 0 the finite
difference (F(p + h*e_i) - F(p)) / h equals V[i]. -/
theorem DAObjFuncMyObj.calcObjFunc_finite_difference (self : DAObjFuncMyObj)
    (others : List scalar) (p : volScalarField) (i : Nat) (h : scalar)
    (fs cs : labelList) (fv cv : scalarList) (v0 : scalar)
    (hi : i < p.length) (hlen : p.length = self.mesh_.V.length) (hh : h ≠ 0) :
    ∃ F0 F1 : scalar,
      (self.withField p).calcObjFunc others fs cs fv cv v0 = .ok ⟨fv, cv, F0⟩
        ∧ (self.withField (p.set i (p.get ⟨i, hi⟩ + h))).calcObjFunc others fs cs fv cv v0
          = .ok ⟨fv, cv, F1⟩
        ∧ (F1 - F0) / h = self.mesh_.V.get ⟨i, hlen ▸ hi⟩ := by
  have hset : (p.set i (p.get ⟨i, hi⟩ + h)).length = self.mesh_.V.length := by
    rw [List.length_set]; exact hlen
  refine ⟨_, _, calcObjFunc_withField self p others fs cs fv cv v0 hlen,
    calcObjFunc_withField self _ others fs cs fv cv v0 hset, ?_⟩
  rw [zipWith_set p self.mesh_.V i _ hlen, List.getD_eq_getElem p 0 hi,
    List.getD_eq_getElem self.mesh_.V 0 (hlen ▸ hi)]
  simp only [List.get_eq_getElem]
  field_simp

/-- C16, witness: on V = [3, 4] and p = [1, 2], raising the pressure of cell 1 by 1/2 gives
a finite difference of 4 = V[1]. -/
theorem DAObjFuncMyObj.calcObjFunc_finite_difference_witness :
    ∃ F0 F1 : scalar,
      ((DAObjFuncMyObj.ofFields [] [3, 4]).withField [1, 2]).calcObjFunc [8] [] [] [] [] 0
          = .ok ⟨[], [], F0⟩
        ∧ ((DAObjFuncMyObj.ofFields [] [3, 4]).withField [1, 2 + 1 / 2]).calcObjFunc [8] [] []
            [] [] 0 = .ok ⟨[], [], F1⟩
        ∧ (F1 - F0) / (1 / 2) = 4 :=
  DAObjFuncMyObj.calcObjFunc_finite_difference (DAObjFuncMyObj.ofFields [] [3, 4]) [8] [1, 2] 1
    (1 / 2) [] [] [] [] 0 (by decide) rfl (by norm_num)

/-! ### Derivative routines of the wrapper -/

theorem afterCall_eq {F O : Type} (self : DASolvers F) (r : Except Failure (O × DASolver F)) :
    (do
      let (out, solver) ← r
      pure (out, { self with DASolverPtr_ := solver }) : Except Failure (O × DASolvers F))
      = self.afterCall r := by
  cases r <;> rfl

/-- C18: every derivative routine of DASolvers is one call of the DASolver member of the same
name on the held solver with the arguments it was given, in the order given: its outcome is
that call's outcome, and on a solver that logs the calls it receives each routine adds
exactly one record, carrying its own name and its arguments unchanged and in order. -/
theorem DASolvers.derivative_routines_forward {F : Type} (d : DASolverDerivs F)
    (self : DASolvers F) (rec : DASolvers (List CallRecord))
    (xvVec wVec psi fBarVec out : Vec) (mat : Mat) (isPC oldTimeLevel : label)
    (objFuncName designVarName designVarType mode : word) :
    self.calcdRdWT d xvVec wVec isPC mat
        = self.afterCall
          (d.calcdRdWT xvVec wVec isPC mat self.DASolverPtr_)
      ∧ self.calcdFdW d xvVec wVec objFuncName out
        = self.afterCall
          (d.calcdFdW xvVec wVec objFuncName out self.DASolverPtr_)
      ∧ self.calcdFdWAD d xvVec wVec objFuncName out
        = self.afterCall
          (d.calcdFdWAD xvVec wVec objFuncName out self.DASolverPtr_)
      ∧ self.calcdFdXvAD d xvVec wVec objFuncName designVarName out
        = self.afterCall
          (d.calcdFdXvAD xvVec wVec objFuncName designVarName out self.DASolverPtr_)
      ∧ self.calcdRdXvTPsiAD d xvVec wVec psi out
        = self.afterCall
          (d.calcdRdXvTPsiAD xvVec wVec psi out self.DASolverPtr_)
      ∧ self.calcdForcedXvAD d xvVec wVec fBarVec out
        = self.afterCall
          (d.calcdForcedXvAD xvVec wVec fBarVec out self.DASolverPtr_)
      ∧ self.calcdRdActTPsiAD d xvVec wVec psi designVarName out
        = self.afterCall
          (d.calcdRdActTPsiAD xvVec wVec psi designVarName out self.DASolverPtr_)
      ∧ self.calcdForcedWAD d xvVec wVec fBarVec out
        = self.afterCall
          (d.calcdForcedWAD xvVec wVec fBarVec out self.DASolverPtr_)
      ∧ self.calcdRdAOATPsiAD d xvVec wVec psi designVarName out
        = self.afterCall
          (d.calcdRdAOATPsiAD xvVec wVec psi designVarName out self.DASolverPtr_)
      ∧ self.calcdRdBC d xvVec wVec designVarName mat
        = self.afterCall
          (d.calcdRdBC xvVec wVec designVarName mat self.DASolverPtr_)
      ∧ self.calcdFdBC d xvVec wVec objFuncName designVarName out
        = self.afterCall
          (d.calcdFdBC xvVec wVec objFuncName designVarName out self.DASolverPtr_)
      ∧ self.calcdFdBCAD d xvVec wVec objFuncName designVarName out
        = self.afterCall
          (d.calcdFdBCAD xvVec wVec objFuncName designVarName out self.DASolverPtr_)
      ∧ self.calcdRdBCTPsiAD d xvVec wVec psi designVarName out
        = self.afterCall
          (d.calcdRdBCTPsiAD xvVec wVec psi designVarName out self.DASolverPtr_)
      ∧ self.calcdRdAOA d xvVec wVec designVarName mat
        = self.afterCall
          (d.calcdRdAOA xvVec wVec designVarName mat self.DASolverPtr_)
      ∧ self.calcdFdAOA d xvVec wVec objFuncName designVarName out
        = self.afterCall
          (d.calcdFdAOA xvVec wVec objFuncName designVarName out self.DASolverPtr_)
      ∧ self.calcdRdFFD d xvVec wVec designVarName mat
        = self.afterCall
          (d.calcdRdFFD xvVec wVec designVarName mat self.DASolverPtr_)
      ∧ self.calcdFdFFD d xvVec wVec objFuncName designVarName out
        = self.afterCall
          (d.calcdFdFFD xvVec wVec objFuncName designVarName out self.DASolverPtr_)
      ∧ self.calcdRdACT d xvVec wVec designVarName designVarType mat
        = self.afterCall
          (d.calcdRdACT xvVec wVec designVarName designVarType mat self.DASolverPtr_)
      ∧ self.calcdFdACTAD d xvVec wVec objFuncName designVarName out
        = self.afterCall
          (d.calcdFdACTAD xvVec wVec objFuncName designVarName out self.DASolverPtr_)
      ∧ self.calcdFdACT d xvVec wVec objFuncName designVarName designVarType out
        = self.afterCall
          (d.calcdFdACT xvVec wVec objFuncName designVarName designVarType out self.DASolverPtr_)
      ∧ self.calcdRdFieldTPsiAD d xvVec wVec psi designVarName out
        = self.afterCall
          (d.calcdRdFieldTPsiAD xvVec wVec psi designVarName out self.DASolverPtr_)
      ∧ self.calcdFdFieldAD d xvVec wVec objFuncName designVarName out
        = self.afterCall
          (d.calcdFdFieldAD xvVec wVec objFuncName designVarName out self.DASolverPtr_)
      ∧ self.calcdRdWOldTPsiAD d oldTimeLevel psi out
        = self.afterCall
          (d.calcdRdWOldTPsiAD oldTimeLevel psi out self.DASolverPtr_)
      ∧ self.calcdRdWTPsiAD d xvVec wVec psi out
        = self.afterCall
          (d.calcdRdWTPsiAD xvVec wVec psi out self.DASolverPtr_)
      ∧ self.calcdForcedStateTPsiAD d mode xvVec wVec psi out
        = self.afterCall
          (d.calcdForcedStateTPsiAD mode xvVec wVec psi out self.DASolverPtr_)
      ∧ (rec.calcdRdWT DASolverDerivs.recording xvVec wVec isPC mat).map
          (fun r => (r.1, r.2.DASolverPtr_.meshPtr_))
        = .ok (mat, rec.DASolverPtr_.meshPtr_ ++ [⟨"calcdRdWT",
            [.vec xvVec, .vec wVec, .lbl isPC, .mat mat]⟩])
      ∧ (rec.calcdFdW DASolverDerivs.recording xvVec wVec objFuncName out).map
          (fun r => (r.1, r.2.DASolverPtr_.meshPtr_))
        = .ok (out, rec.DASolverPtr_.meshPtr_ ++ [⟨"calcdFdW",
            [.vec xvVec, .vec wVec, .wrd objFuncName, .vec out]⟩])
      ∧ (rec.calcdFdWAD DASolverDerivs.recording xvVec wVec objFuncName out).map
          (fun r => (r.1, r.2.DASolverPtr_.meshPtr_))
        = .ok (out, rec.DASolverPtr_.meshPtr_ ++ [⟨"calcdFdWAD",
            [.vec xvVec, .vec wVec, .wrd objFuncName, .vec out]⟩])
      ∧ (rec.calcdFdXvAD DASolverDerivs.recording xvVec wVec objFuncName designVarName out).map
          (fun r => (r.1, r.2.DASolverPtr_.meshPtr_))
        = .ok (out, rec.DASolverPtr_.meshPtr_ ++ [⟨"calcdFdXvAD",
            [.vec xvVec, .vec wVec, .wrd objFuncName, .wrd designVarName, .vec out]⟩])
      ∧ (rec.calcdRdXvTPsiAD DASolverDerivs.recording xvVec wVec psi out).map
          (fun r => (r.1, r.2.DASolverPtr_.meshPtr_))
        = .ok (out, rec.DASolverPtr_.meshPtr_ ++ [⟨"calcdRdXvTPsiAD",
            [.vec xvVec, .vec wVec, .vec psi, .vec out]⟩])
      ∧ (rec.calcdForcedXvAD DASolverDerivs.recording xvVec wVec fBarVec out).map
          (fun r => (r.1, r.2.DASolverPtr_.meshPtr_))
        = .ok (out, rec.DASolverPtr_.meshPtr_ ++ [⟨"calcdForcedXvAD",
            [.vec xvVec, .vec wVec, .vec fBarVec, .vec out]⟩])
      ∧ (rec.calcdRdActTPsiAD DASolverDerivs.recording xvVec wVec psi designVarName out).map
          (fun r => (r.1, r.2.DASolverPtr_.meshPtr_))
        = .ok (out, rec.DASolverPtr_.meshPtr_ ++ [⟨"calcdRdActTPsiAD",
            [.vec xvVec, .vec wVec, .vec psi, .wrd designVarName, .vec out]⟩])
      ∧ (rec.calcdForcedWAD DASolverDerivs.recording xvVec wVec fBarVec out).map
          (fun r => (r.1, r.2.DASolverPtr_.meshPtr_))
        = .ok (out, rec.DASolverPtr_.meshPtr_ ++ [⟨"calcdForcedWAD",
            [.vec xvVec, .vec wVec, .vec fBarVec, .vec out]⟩])
      ∧ (rec.calcdRdAOATPsiAD DASolverDerivs.recording xvVec wVec psi designVarName out).map
          (fun r => (r.1, r.2.DASolverPtr_.meshPtr_))
        = .ok (out, rec.DASolverPtr_.meshPtr_ ++ [⟨"calcdRdAOATPsiAD",
            [.vec xvVec, .vec wVec, .vec psi, .wrd designVarName, .vec out]⟩])
      ∧ (rec.calcdRdBC DASolverDerivs.recording xvVec wVec designVarName mat).map
          (fun r => (r.1, r.2.DASolverPtr_.meshPtr_))
        = .ok (mat, rec.DASolverPtr_.meshPtr_ ++ [⟨"calcdRdBC",
            [.vec xvVec, .vec wVec, .wrd designVarName, .mat mat]⟩])
      ∧ (rec.calcdFdBC DASolverDerivs.recording xvVec wVec objFuncName designVarName out).map
          (fun r => (r.1, r.2.DASolverPtr_.meshPtr_))
        = .ok (out, rec.DASolverPtr_.meshPtr_ ++ [⟨"calcdFdBC",
            [.vec xvVec, .vec wVec, .wrd objFuncName, .wrd designVarName, .vec out]⟩])
      ∧ (rec.calcdFdBCAD DASolverDerivs.recording xvVec wVec objFuncName designVarName out).map
          (fun r => (r.1, r.2.DASolverPtr_.meshPtr_))
        = .ok (out, rec.DASolverPtr_.meshPtr_ ++ [⟨"calcdFdBCAD",
            [.vec xvVec, .vec wVec, .wrd objFuncName, .wrd designVarName, .vec out]⟩])
      ∧ (rec.calcdRdBCTPsiAD DASolverDerivs.recording xvVec wVec psi designVarName out).map
          (fun r => (r.1, r.2.DASolverPtr_.meshPtr_))
        = .ok (out, rec.DASolverPtr_.meshPtr_ ++ [⟨"calcdRdBCTPsiAD",
            [.vec xvVec, .vec wVec, .vec psi, .wrd designVarName, .vec out]⟩])
      ∧ (rec.calcdRdAOA DASolverDerivs.recording xvVec wVec designVarName mat).map
          (fun r => (r.1, r.2.DASolverPtr_.meshPtr_))
        = .ok (mat, rec.DASolverPtr_.meshPtr_ ++ [⟨"calcdRdAOA",
            [.vec xvVec, .vec wVec, .wrd designVarName, .mat mat]⟩])
      ∧ (rec.calcdFdAOA DASolverDerivs.recording xvVec wVec objFuncName designVarName out).map
          (fun r => (r.1, r.2.DASolverPtr_.meshPtr_))
        = .ok (out, rec.DASolverPtr_.meshPtr_ ++ [⟨"calcdFdAOA",
            [.vec xvVec, .vec wVec, .wrd objFuncName, .wrd designVarName, .vec out]⟩])
      ∧ (rec.calcdRdFFD DASolverDerivs.recording xvVec wVec designVarName mat).map
          (fun r => (r.1, r.2.DASolverPtr_.meshPtr_))
        = .ok (mat, rec.DASolverPtr_.meshPtr_ ++ [⟨"calcdRdFFD",
            [.vec xvVec, .vec wVec, .wrd designVarName, .mat mat]⟩])
      ∧ (rec.calcdFdFFD DASolverDerivs.recording xvVec wVec objFuncName designVarName out).map
          (fun r => (r.1, r.2.DASolverPtr_.meshPtr_))
        = .ok (out, rec.DASolverPtr_.meshPtr_ ++ [⟨"calcdFdFFD",
            [.vec xvVec, .vec wVec, .wrd objFuncName, .wrd designVarName, .vec out]⟩])
      ∧ (rec.calcdRdACT DASolverDerivs.recording xvVec wVec designVarName designVarType mat).map
          (fun r => (r.1, r.2.DASolverPtr_.meshPtr_))
        = .ok (mat, rec.DASolverPtr_.meshPtr_ ++ [⟨"calcdRdACT",
            [.vec xvVec, .vec wVec, .wrd designVarName, .wrd designVarType, .mat mat]⟩])
      ∧ (rec.calcdFdACTAD DASolverDerivs.recording xvVec wVec objFuncName designVarName out).map
          (fun r => (r.1, r.2.DASolverPtr_.meshPtr_))
        = .ok (out, rec.DASolverPtr_.meshPtr_ ++ [⟨"calcdFdACTAD",
            [.vec xvVec, .vec wVec, .wrd objFuncName, .wrd designVarName, .vec out]⟩])
      ∧ (rec.calcdFdACT DASolverDerivs.recording xvVec wVec objFuncName designVarName
          designVarType out).map
          (fun r => (r.1, r.2.DASolverPtr_.meshPtr_))
        = .ok (out, rec.DASolverPtr_.meshPtr_ ++ [⟨"calcdFdACT",
            [.vec xvVec, .vec wVec, .wrd objFuncName, .wrd designVarName,
             .wrd designVarType, .vec out]⟩])
      ∧ (rec.calcdRdFieldTPsiAD DASolverDerivs.recording xvVec wVec psi designVarName out).map
          (fun r => (r.1, r.2.DASolverPtr_.meshPtr_))
        = .ok (out, rec.DASolverPtr_.meshPtr_ ++ [⟨"calcdRdFieldTPsiAD",
            [.vec xvVec, .vec wVec, .vec psi, .wrd designVarName, .vec out]⟩])
      ∧ (rec.calcdFdFieldAD DASolverDerivs.recording xvVec wVec objFuncName designVarName out).map
          (fun r => (r.1, r.2.DASolverPtr_.meshPtr_))
        = .ok (out, rec.DASolverPtr_.meshPtr_ ++ [⟨"calcdFdFieldAD",
            [.vec xvVec, .vec wVec, .wrd objFuncName, .wrd designVarName, .vec out]⟩])
      ∧ (rec.calcdRdWOldTPsiAD DASolverDerivs.recording oldTimeLevel psi out).map
          (fun r => (r.1, r.2.DASolverPtr_.meshPtr_))
        = .ok (out, rec.DASolverPtr_.meshPtr_ ++ [⟨"calcdRdWOldTPsiAD",
            [.lbl oldTimeLevel, .vec psi, .vec out]⟩])
      ∧ (rec.calcdRdWTPsiAD DASolverDerivs.recording xvVec wVec psi out).map
          (fun r => (r.1, r.2.DASolverPtr_.meshPtr_))
        = .ok (out, rec.DASolverPtr_.meshPtr_ ++ [⟨"calcdRdWTPsiAD",
            [.vec xvVec, .vec wVec, .vec psi, .vec out]⟩])
      ∧ (rec.calcdForcedStateTPsiAD DASolverDerivs.recording mode xvVec wVec psi out).map
          (fun r => (r.1, r.2.DASolverPtr_.meshPtr_))
        = .ok (out, rec.DASolverPtr_.meshPtr_ ++ [⟨"calcdForcedStateTPsiAD",
            [.wrd mode, .vec xvVec, .vec wVec, .vec psi, .vec out]⟩]) :=
  ⟨afterCall_eq self _, afterCall_eq self _, afterCall_eq self _, afterCall_eq self _,
   afterCall_eq self _, afterCall_eq self _, afterCall_eq self _, afterCall_eq self _,
   afterCall_eq self _, afterCall_eq self _, afterCall_eq self _, afterCall_eq self _,
   afterCall_eq self _, afterCall_eq self _, afterCall_eq self _, afterCall_eq self _,
   afterCall_eq self _, afterCall_eq self _, afterCall_eq self _, afterCall_eq self _,
   afterCall_eq self _, afterCall_eq self _, afterCall_eq self _, afterCall_eq self _,
   afterCall_eq self _, rfl, rfl, rfl, rfl, rfl, rfl, rfl, rfl, rfl, rfl, rfl, rfl, rfl, rfl,
   rfl, rfl, rfl, rfl, rfl, rfl, rfl, rfl, rfl, rfl, rfl⟩

/-! ### Construction of DAObjFuncMyObj -/

/-- C19: constructing DAObjFuncMyObj from an objective dictionary with a word entry "type"
succeeds and leaves objFuncType_ equal to that word (the other members as the base class set
them); from a dictionary without a "type" entry the construction fails. -/
theorem DAObjFuncMyObj.new_objFuncType (mesh : fvMesh) (objFuncName objFuncPart : word)
    (objFuncDict : dictionary) :
    (∀ w : word, objFuncDict.lookup "type" = some (.wordEntry w) →
        DAObjFuncMyObj.new mesh objFuncName objFuncPart objFuncDict
            = .ok { DAObjFunc.new mesh objFuncName objFuncPart objFuncDict with
                objFuncType_ := w }
          ∧ ∃ obj, DAObjFuncMyObj.new mesh objFuncName objFuncPart objFuncDict = .ok obj
            ∧ obj.objFuncType_ = w)
      ∧ (objFuncDict.lookup "type" = none →
          DAObjFuncMyObj.new mesh objFuncName objFuncPart objFuncDict
              = .error (.notFound "type")
            ∧ ∀ obj, DAObjFuncMyObj.new mesh objFuncName objFuncPart objFuncDict ≠ .ok obj) := by
  refine ⟨?_, ?_⟩
  · intro w hw
    have h : DAObjFuncMyObj.new mesh objFuncName objFuncPart objFuncDict
        = .ok { DAObjFunc.new mesh objFuncName objFuncPart objFuncDict with
            objFuncType_ := w } := by
      simp only [DAObjFuncMyObj.new, DAObjFunc.new, dictionary.readEntryWord, hw]
      rfl
    exact ⟨h, _, h, rfl⟩
  · intro hnone
    have h : DAObjFuncMyObj.new mesh objFuncName objFuncPart objFuncDict
        = .error (.notFound "type") := by
      simp only [DAObjFuncMyObj.new, DAObjFunc.new, dictionary.readEntryWord, hnone]
      rfl
    refine ⟨h, ?_⟩
    intro obj hobj
    rw [h] at hobj
    cases hobj

/-- C19, witness: a dictionary with type myObj gives objFuncType_ = "myObj"; a dictionary
with a scale entry only makes the construction fail. -/
theorem DAObjFuncMyObj.new_objFuncType_witness :
    (∃ obj, DAObjFuncMyObj.new { V := [3, 4], thisDb := [("p", [1, 2])] } "F" "part1"
          [("scale", .scalarEntry 2), ("type", .wordEntry "myObj")] = .ok obj
        ∧ obj.objFuncType_ = "myObj")
      ∧ DAObjFuncMyObj.new { V := [3, 4], thisDb := [("p", [1, 2])] } "F" "part1"
          [("scale", .scalarEntry 2)] = .error (.notFound "type") :=
  ⟨((DAObjFuncMyObj.new_objFuncType { V := [3, 4], thisDb := [("p", [1, 2])] } "F" "part1"
      [("scale", .scalarEntry 2), ("type", .wordEntry "myObj")]).1 "myObj" rfl).2,
   ((DAObjFuncMyObj.new_objFuncType { V := [3, 4], thisDb := [("p", [1, 2])] } "F" "part1"
      [("scale", .scalarEntry 2)]).2 rfl).1⟩

end Foam
